import Mathlib

/-!
Verification of the cbandits repository: budget-constrained multi-armed
bandit algorithms (UCB-B1, UCB-B2, UCB-B2C, UCB-M1), the statistical
estimator library, and the cost/reward sampling environment.

The Python source is shallowly embedded: floating-point scalars become
real numbers, numpy arrays become lists, the mutable `self` of each
algorithm class becomes a structure that `update_state` / `reset`
transform functionally, and `np.inf` scores live in `EReal`.
Pull counts (stored by the source in float arrays but only ever holding
naturals) are embedded as `ℕ`.
-/

open scoped Classical

noncomputable section

/-! ## Estimator library (src/utils/estimators.py) -/

/-- `calculate_empirical_mean` from src/utils/estimators.py:
`total_sum / num_pulls`, and `0.0` when `num_pulls == 0`. -/
def calculate_empirical_mean (total_sum : ℝ) (num_pulls : ℕ) : ℝ :=
  if num_pulls = 0 then 0 else total_sum / num_pulls

/-- `calculate_empirical_variance` from src/utils/estimators.py:
`max(0, sum_sq/n - (sum/n)^2)`, and `0.0` when `n < 2`. -/
def calculate_empirical_variance (sum_sq_values total_sum : ℝ) (num_pulls : ℕ) : ℝ :=
  if num_pulls < 2 then 0
  else
    max 0 (sum_sq_values / num_pulls - (total_sum / num_pulls) ^ 2)

/-- `calculate_lmmse_omega_empirical` from src/utils/estimators.py:
empirical `Cov(X,R) / Var(X)`, with `0.0` when `n < 2` or when the
empirical variance of `X` is below the `1e-9` threshold. -/
def calculate_lmmse_omega_empirical
    (sum_X sum_R sum_X_sq sum_R_sq sum_XR : ℝ) (num_pulls : ℕ) : ℝ :=
  if num_pulls < 2 then 0
  else
    let emp_mean_X := calculate_empirical_mean sum_X num_pulls
    let emp_mean_R := calculate_empirical_mean sum_R num_pulls
    let emp_var_X := calculate_empirical_variance sum_X_sq sum_X num_pulls
    if emp_var_X < 1e-9 then 0
    else
      let emp_mean_XR := calculate_empirical_mean sum_XR num_pulls
      let emp_cov_XR := emp_mean_XR - emp_mean_X * emp_mean_R
      emp_cov_XR / emp_var_X

/-- `calculate_lmmse_variance_reduction_empirical` from
src/utils/estimators.py: `max(0, Var(R) - omega^2 * Var(X))`, with
`0.0` when `n < 2`. -/
def calculate_lmmse_variance_reduction_empirical
    (sum_X sum_R sum_X_sq sum_R_sq sum_XR : ℝ) (num_pulls : ℕ) (omega : ℝ) : ℝ :=
  if num_pulls < 2 then 0
  else
    let emp_var_R := calculate_empirical_variance sum_R_sq sum_R num_pulls
    let emp_var_X := calculate_empirical_variance sum_X_sq sum_X num_pulls
    max 0 (emp_var_R - omega ^ 2 * emp_var_X)

/-! ## Shared numeric helpers (numpy counterparts) -/

/-- `np.argmax`: index of the first occurrence of the maximum value.
numpy scans left to right and replaces the current best only on a
strictly larger value. -/
def npArgmax (l : List EReal) : ℕ :=
  (List.range l.length).foldl
    (fun best i => if l.getD best ⊥ < l.getD i ⊥ then i else best) 0

/-- `np.mean` of a 1-d array: sum divided by length (the empty case,
`nan` in numpy, is never reached by the embedded code). -/
def npMean (l : List ℝ) : ℝ := l.sum / l.length

/-- Insert into a sorted list (helper for `npMedian`). -/
def insertSorted (a : ℝ) : List ℝ → List ℝ
  | [] => [a]
  | b :: t => if a ≤ b then a :: b :: t else b :: insertSorted a t

/-- Insertion sort (any correct sort yields `np.median`'s sorted array). -/
def insertionSort : List ℝ → List ℝ
  | [] => []
  | a :: t => insertSorted a (insertionSort t)

/-- `np.median`: middle element of the sorted array for odd length,
average of the two middle elements for even length. -/
def npMedian (l : List ℝ) : ℝ :=
  let s := insertionSort l
  if l.length % 2 = 1 then s.getD (l.length / 2) 0
  else (s.getD (l.length / 2 - 1) 0 + s.getD (l.length / 2) 0) / 2

/-! ## Algorithm configuration records

`algorithm_params` is a Python dict read with `.get(key, default)`;
absent keys are `none`.  Arm configs for the moment-aware variants
(B1, M1) carry `var_X`, `var_R`, `cov_XR` in `config['params']`; the
bound-aware variants (B2, B2C) read `M_X`, `M_R`.  A missing key would
be a Python `KeyError` at construction; the claims only concern
well-formed configs, so these records carry the required fields. -/

structure AlgorithmParams where
  alpha : Option ℝ := none
  L : Option ℝ := none
  b_min_cost : Option ℝ := none
  omega_bar : Option ℝ := none
  M_X : Option ℝ := none
  M_R : Option ℝ := none

/-- Arm config fields consumed by `UCB_B1.__init__` / `UCB_M1.__init__`. -/
structure MomentArmConfig where
  var_X : ℝ
  var_R : ℝ
  cov_XR : ℝ

/-- Arm config fields consumed by `UCB_B2.__init__` / `UCB_B2C.__init__`. -/
structure BoundArmConfig where
  M_X : ℝ
  M_R : ℝ

/-! ## UCB_B1 (src/cbandits/algorithms/ucb_b1.py) -/

/-- The state of a `UCB_B1` instance: the constructor-derived constants
plus the per-arm running statistics (pull counts are integer-valued,
embedded as `ℕ`). -/
@[ext]
structure UCB_B1 where
  num_arms : ℕ
  alpha : ℝ
  L : ℝ
  b_min_cost : ℝ
  var_X : List ℝ
  var_R : List ℝ
  cov_XR : List ℝ
  omega_k : List ℝ
  V_XR : List ℝ
  M_X : ℝ
  M_R : ℝ
  arm_pulls : List ℕ
  total_costs : List ℝ
  total_rewards : List ℝ

namespace UCB_B1

/-- `UCB_B1.__init__`. -/
def init (num_arms : ℕ) (arm_configs : List MomentArmConfig)
    (algorithm_params : AlgorithmParams) : UCB_B1 :=
  { num_arms := num_arms
    alpha := algorithm_params.alpha.getD 2.1
    L := algorithm_params.L.getD 2
    b_min_cost := algorithm_params.b_min_cost.getD 0.1
    var_X := arm_configs.map (fun c => c.var_X)
    var_R := arm_configs.map (fun c => c.var_R)
    cov_XR := arm_configs.map (fun c => c.cov_XR)
    omega_k := arm_configs.map (fun c =>
      if c.var_X > 1e-9 then c.cov_XR / c.var_X else 0)
    V_XR := arm_configs.map (fun c =>
      let om := if c.var_X > 1e-9 then c.cov_XR / c.var_X else 0
      max 0 (if c.var_X > 1e-9 then c.var_R - om ^ 2 * c.var_X else c.var_R))
    M_X := algorithm_params.M_X.getD 0
    M_R := algorithm_params.M_R.getD 0
    arm_pulls := List.replicate num_arms 0
    total_costs := List.replicate num_arms 0
    total_rewards := List.replicate num_arms 0 }

/-- `T_k(n)`: the pull count of arm `k`. -/
def T_k (s : UCB_B1) (k : ℕ) : ℕ := s.arm_pulls.getD k 0

/-- `emp_mean_X = total_costs[k] / T_k`. -/
def emp_mean_X (s : UCB_B1) (k : ℕ) : ℝ := s.total_costs.getD k 0 / (s.T_k k : ℝ)

/-- `emp_mean_R = total_rewards[k] / T_k`. -/
def emp_mean_R (s : UCB_B1) (k : ℕ) : ℝ := s.total_rewards.getD k 0 / (s.T_k k : ℝ)

/-- `r_hat_k = max(0, emp_mean_R) / max(b_min_cost, emp_mean_X)`. -/
def r_hat (s : UCB_B1) (k : ℕ) : ℝ :=
  max 0 (s.emp_mean_R k) / max s.b_min_cost (s.emp_mean_X k)

/-- `epsilon_k_n_g`. -/
def epsilon_g (s : UCB_B1) (k : ℕ) (current_epoch : ℕ) : ℝ :=
  2 * s.alpha * s.M_R * Real.log current_epoch / (3 * (s.T_k k : ℝ)) +
    Real.sqrt (s.L * s.alpha * s.V_XR.getD k 0 * Real.log current_epoch / (s.T_k k : ℝ))

/-- `eta_k_n_g`. -/
def eta_g (s : UCB_B1) (k : ℕ) (current_epoch : ℕ) : ℝ :=
  2 * s.alpha * s.M_X * Real.log current_epoch / (3 * (s.T_k k : ℝ)) +
    Real.sqrt (s.L * s.alpha * s.var_X.getD k 0 * Real.log current_epoch / (s.T_k k : ℝ))

/-- `lambda_val = 1.28` from the stability check. -/
def lambda_val : ℝ := 1.28

/-- The B1 stability check: starts `True`, set to `False` when
`emp_mean_X < b_min_cost`, otherwise set to `False` when
`eta_k_n_g >= emp_mean_X * (lambda_val - 1) / lambda_val`. -/
def stability_condition_met (s : UCB_B1) (k : ℕ) (current_epoch : ℕ) : Prop :=
  ¬ s.emp_mean_X k < s.b_min_cost ∧
    ¬ s.eta_g k current_epoch ≥ s.emp_mean_X k * (lambda_val - 1) / lambda_val

/-- `c_k_n_b1`: `np.inf` (embedded as `⊤ : EReal`) when the stability
check failed, otherwise `1.4 * (epsilon + (r_hat - omega) * eta) / max(b_min_cost, emp_mean_X)`. -/
def c_b1 (s : UCB_B1) (k : ℕ) (current_epoch : ℕ) : EReal :=
  if ¬ s.stability_condition_met k current_epoch then (⊤ : EReal)
  else
    ((1.4 * (s.epsilon_g k current_epoch +
        (s.r_hat k - s.omega_k.getD k 0) * s.eta_g k current_epoch) /
      max s.b_min_cost (s.emp_mean_X k) : ℝ) : EReal)

/-- `ucb_values[k] = r_hat_k + c_k_n_b1`. -/
def ucb_value (s : UCB_B1) (k : ℕ) (current_epoch : ℕ) : EReal :=
  ((s.r_hat k : ℝ) : EReal) + s.c_b1 k current_epoch

/-- `UCB_B1.select_arm`: return the first untried arm (cold start),
otherwise the argmax of the UCB values. -/
def select_arm (s : UCB_B1) (current_total_cost : ℝ) (current_epoch : ℕ) : ℕ :=
  match (List.range s.num_arms).find? (fun k => s.arm_pulls.getD k 0 == 0) with
  | some k => k
  | none => npArgmax ((List.range s.num_arms).map
      (fun k => s.ucb_value k current_epoch))

/-- `UCB_B1.update_state`. -/
def update_state (s : UCB_B1) (chosen_arm : ℕ) (cost reward : ℝ) : UCB_B1 :=
  { s with
    arm_pulls := s.arm_pulls.set chosen_arm (s.arm_pulls.getD chosen_arm 0 + 1)
    total_costs := s.total_costs.set chosen_arm (s.total_costs.getD chosen_arm 0 + cost)
    total_rewards := s.total_rewards.set chosen_arm (s.total_rewards.getD chosen_arm 0 + reward) }

/-- `UCB_B1.reset`: `.fill(0)` on each per-arm array. -/
def reset (s : UCB_B1) : UCB_B1 :=
  { s with
    arm_pulls := s.arm_pulls.map (fun _ => 0)
    total_costs := s.total_costs.map (fun _ => 0)
    total_rewards := s.total_rewards.map (fun _ => 0) }

end UCB_B1

/-! ## UCB_B2 (src/algorithms/ucb_b2.py) -/

/-- The state of a `UCB_B2` instance. -/
@[ext]
structure UCB_B2 where
  num_arms : ℕ
  alpha : ℝ
  b_min_cost : ℝ
  M_X : List ℝ
  M_R : List ℝ
  arm_pulls : List ℕ
  total_costs : List ℝ
  total_rewards : List ℝ
  sum_sq_costs : List ℝ
  sum_sq_rewards : List ℝ

namespace UCB_B2

/-- `UCB_B2.__init__`. -/
def init (num_arms : ℕ) (arm_configs : List BoundArmConfig)
    (algorithm_params : AlgorithmParams) : UCB_B2 :=
  { num_arms := num_arms
    alpha := algorithm_params.alpha.getD 2.1
    b_min_cost := algorithm_params.b_min_cost.getD 0.1
    M_X := arm_configs.map (fun c => c.M_X)
    M_R := arm_configs.map (fun c => c.M_R)
    arm_pulls := List.replicate num_arms 0
    total_costs := List.replicate num_arms 0
    total_rewards := List.replicate num_arms 0
    sum_sq_costs := List.replicate num_arms 0
    sum_sq_rewards := List.replicate num_arms 0 }

/-- Pull count of arm `k`. -/
def T_k (s : UCB_B2) (k : ℕ) : ℕ := s.arm_pulls.getD k 0

/-- `log(n^alpha) = alpha * log(n)`. -/
def log_n_alpha (s : UCB_B2) (current_epoch : ℕ) : ℝ :=
  s.alpha * Real.log current_epoch

/-- `emp_mean_X` via `calculate_empirical_mean`. -/
def emp_mean_X (s : UCB_B2) (k : ℕ) : ℝ :=
  calculate_empirical_mean (s.total_costs.getD k 0) (s.T_k k)

/-- `emp_mean_R` via `calculate_empirical_mean`. -/
def emp_mean_R (s : UCB_B2) (k : ℕ) : ℝ :=
  calculate_empirical_mean (s.total_rewards.getD k 0) (s.T_k k)

/-- Empirical variance of the rewards of arm `k`. -/
def emp_var_R (s : UCB_B2) (k : ℕ) : ℝ :=
  calculate_empirical_variance (s.sum_sq_rewards.getD k 0) (s.total_rewards.getD k 0) (s.T_k k)

/-- Empirical variance of the costs of arm `k`. -/
def emp_var_X (s : UCB_B2) (k : ℕ) : ℝ :=
  calculate_empirical_variance (s.sum_sq_costs.getD k 0) (s.total_costs.getD k 0) (s.T_k k)

/-- `r_hat_k = max(0, emp_mean_R) / max(b_min_cost, emp_mean_X)`. -/
def r_hat (s : UCB_B2) (k : ℕ) : ℝ :=
  max 0 (s.emp_mean_R k) / max s.b_min_cost (s.emp_mean_X k)

/-- `epsilon_k_n_b2`. -/
def epsilon_b2 (s : UCB_B2) (k : ℕ) (current_epoch : ℕ) : ℝ :=
  Real.sqrt (2 * s.emp_var_R k * s.log_n_alpha current_epoch / (s.T_k k : ℝ)) +
    3 * s.M_R.getD k 0 * s.log_n_alpha current_epoch / (s.T_k k : ℝ)

/-- `eta_k_n_b2`. -/
def eta_b2 (s : UCB_B2) (k : ℕ) (current_epoch : ℕ) : ℝ :=
  Real.sqrt (2 * s.emp_var_X k * s.log_n_alpha current_epoch / (s.T_k k : ℝ)) +
    3 * s.M_X.getD k 0 * s.log_n_alpha current_epoch / (s.T_k k : ℝ)

/-- `effective_theta1 = max(b_min_cost, emp_mean_X)`, i.e. `(E_n[X_k])^+`. -/
def effective_theta1 (s : UCB_B2) (k : ℕ) : ℝ :=
  max s.b_min_cost (s.emp_mean_X k)

/-- The B2 stability check: fails exactly when
`eta_k_n_b2 >= effective_theta1 * (lambda_val - 1) / lambda_val`. -/
def stability_condition_met (s : UCB_B2) (k : ℕ) (current_epoch : ℕ) : Prop :=
  ¬ s.eta_b2 k current_epoch ≥
      s.effective_theta1 k * (UCB_B1.lambda_val - 1) / UCB_B1.lambda_val

/-- `c_k_n_b2`. -/
def c_b2 (s : UCB_B2) (k : ℕ) (current_epoch : ℕ) : EReal :=
  if ¬ s.stability_condition_met k current_epoch then (⊤ : EReal)
  else
    ((1.4 * (s.epsilon_b2 k current_epoch + s.r_hat k * s.eta_b2 k current_epoch) /
      s.effective_theta1 k : ℝ) : EReal)

/-- `ucb_values[k] = r_hat_k + c_k_n_b2`. -/
def ucb_value (s : UCB_B2) (k : ℕ) (current_epoch : ℕ) : EReal :=
  ((s.r_hat k : ℝ) : EReal) + s.c_b2 k current_epoch

/-- `UCB_B2.select_arm`. -/
def select_arm (s : UCB_B2) (current_total_cost : ℝ) (current_epoch : ℕ) : ℕ :=
  match (List.range s.num_arms).find? (fun k => s.arm_pulls.getD k 0 == 0) with
  | some k => k
  | none => npArgmax ((List.range s.num_arms).map
      (fun k => s.ucb_value k current_epoch))

/-- `UCB_B2.update_state`. -/
def update_state (s : UCB_B2) (chosen_arm : ℕ) (cost reward : ℝ) : UCB_B2 :=
  { s with
    arm_pulls := s.arm_pulls.set chosen_arm (s.arm_pulls.getD chosen_arm 0 + 1)
    total_costs := s.total_costs.set chosen_arm (s.total_costs.getD chosen_arm 0 + cost)
    total_rewards := s.total_rewards.set chosen_arm (s.total_rewards.getD chosen_arm 0 + reward)
    sum_sq_costs := s.sum_sq_costs.set chosen_arm (s.sum_sq_costs.getD chosen_arm 0 + cost ^ 2)
    sum_sq_rewards := s.sum_sq_rewards.set chosen_arm (s.sum_sq_rewards.getD chosen_arm 0 + reward ^ 2) }

/-- `UCB_B2.reset`. -/
def reset (s : UCB_B2) : UCB_B2 :=
  { s with
    arm_pulls := s.arm_pulls.map (fun _ => 0)
    total_costs := s.total_costs.map (fun _ => 0)
    total_rewards := s.total_rewards.map (fun _ => 0)
    sum_sq_costs := s.sum_sq_costs.map (fun _ => 0)
    sum_sq_rewards := s.sum_sq_rewards.map (fun _ => 0) }

end UCB_B2

/-! ## UCB_B2C (src/algorithms/ucb_b2c.py) -/

/-- The state of a `UCB_B2C` instance: per-arm sample buffers instead of
running sums. -/
@[ext]
structure UCB_B2C where
  num_arms : ℕ
  alpha : ℝ
  b_min_cost : ℝ
  omega_bar : ℝ
  arm_samples_X : List (List ℝ)
  arm_samples_R : List (List ℝ)
  arm_pulls : List ℕ
  M_X : List ℝ
  M_R : List ℝ
  M_Z : List ℝ

namespace UCB_B2C

/-- `UCB_B2C.__init__` (`M_Z = M_R + omega_bar * M_X`, element-wise). -/
def init (num_arms : ℕ) (arm_configs : List BoundArmConfig)
    (algorithm_params : AlgorithmParams) : UCB_B2C :=
  let omega_bar := algorithm_params.omega_bar.getD 2.0
  { num_arms := num_arms
    alpha := algorithm_params.alpha.getD 2.1
    b_min_cost := algorithm_params.b_min_cost.getD 0.1
    omega_bar := omega_bar
    arm_samples_X := List.replicate num_arms []
    arm_samples_R := List.replicate num_arms []
    arm_pulls := List.replicate num_arms 0
    M_X := arm_configs.map (fun c => c.M_X)
    M_R := arm_configs.map (fun c => c.M_R)
    M_Z := arm_configs.map (fun c => c.M_R + omega_bar * c.M_X) }

/-- Pull count of arm `k`. -/
def T_k (s : UCB_B2C) (k : ℕ) : ℕ := s.arm_pulls.getD k 0

/-- `log(n^alpha) = alpha * log(n)`. -/
def log_n_alpha (s : UCB_B2C) (current_epoch : ℕ) : ℝ :=
  s.alpha * Real.log current_epoch

/-- `sum_X = np.sum(arm_samples_X[k])`. -/
def sum_X (s : UCB_B2C) (k : ℕ) : ℝ := (s.arm_samples_X.getD k []).sum

/-- `sum_R = np.sum(arm_samples_R[k])`. -/
def sum_R (s : UCB_B2C) (k : ℕ) : ℝ := (s.arm_samples_R.getD k []).sum

/-- `sum_X_sq = np.sum(X**2)`. -/
def sum_X_sq (s : UCB_B2C) (k : ℕ) : ℝ :=
  ((s.arm_samples_X.getD k []).map (fun x => x ^ 2)).sum

/-- `sum_R_sq = np.sum(R**2)`. -/
def sum_R_sq (s : UCB_B2C) (k : ℕ) : ℝ :=
  ((s.arm_samples_R.getD k []).map (fun x => x ^ 2)).sum

/-- `sum_XR = np.sum(X * R)` (element-wise product of the two buffers). -/
def sum_XR (s : UCB_B2C) (k : ℕ) : ℝ :=
  (List.zipWith (fun x r => x * r) (s.arm_samples_X.getD k []) (s.arm_samples_R.getD k [])).sum

/-- `emp_mean_X` via `calculate_empirical_mean` on the buffer sum. -/
def emp_mean_X (s : UCB_B2C) (k : ℕ) : ℝ :=
  calculate_empirical_mean (s.sum_X k) (s.T_k k)

/-- `emp_mean_R` via `calculate_empirical_mean` on the buffer sum. -/
def emp_mean_R (s : UCB_B2C) (k : ℕ) : ℝ :=
  calculate_empirical_mean (s.sum_R k) (s.T_k k)

/-- `r_hat_k = max(0, emp_mean_R) / max(b_min_cost, emp_mean_X)`. -/
def r_hat (s : UCB_B2C) (k : ℕ) : ℝ :=
  max 0 (s.emp_mean_R k) / max s.b_min_cost (s.emp_mean_X k)

/-- `hat_omega_k_n`: the empirical LMMSE slope of arm `k`. -/
def hat_omega (s : UCB_B2C) (k : ℕ) : ℝ :=
  calculate_lmmse_omega_empirical (s.sum_X k) (s.sum_R k) (s.sum_X_sq k)
    (s.sum_R_sq k) (s.sum_XR k) (s.T_k k)

/-- `hat_L_k_n(hat_omega_k_n)`: the empirical residual variance. -/
def hat_L (s : UCB_B2C) (k : ℕ) : ℝ :=
  calculate_lmmse_variance_reduction_empirical (s.sum_X k) (s.sum_R k)
    (s.sum_X_sq k) (s.sum_R_sq k) (s.sum_XR k) (s.T_k k) (s.hat_omega k)

/-- `epsilon_k_n_b2c`. -/
def epsilon_b2c (s : UCB_B2C) (k : ℕ) (current_epoch : ℕ) : ℝ :=
  Real.sqrt (2 * s.hat_L k * s.log_n_alpha current_epoch / (s.T_k k : ℝ)) +
    3 * s.M_Z.getD k 0 * s.log_n_alpha current_epoch / (s.T_k k : ℝ)

/-- Empirical variance of the costs of arm `k`. -/
def emp_var_X (s : UCB_B2C) (k : ℕ) : ℝ :=
  calculate_empirical_variance (s.sum_X_sq k) (s.sum_X k) (s.T_k k)

/-- `eta_k_n_b2c`. -/
def eta_b2c (s : UCB_B2C) (k : ℕ) (current_epoch : ℕ) : ℝ :=
  Real.sqrt (2 * s.emp_var_X k * s.log_n_alpha current_epoch / (s.T_k k : ℝ)) +
    3 * s.M_X.getD k 0 * s.log_n_alpha current_epoch / (s.T_k k : ℝ)

/-- `effective_theta1 = max(b_min_cost, emp_mean_X)`. -/
def effective_theta1 (s : UCB_B2C) (k : ℕ) : ℝ :=
  max s.b_min_cost (s.emp_mean_X k)

/-- The B2C stability check: fails exactly when
`eta_k_n_b2c >= effective_theta1 * (lambda_val - 1) / lambda_val`. -/
def stability_condition_met (s : UCB_B2C) (k : ℕ) (current_epoch : ℕ) : Prop :=
  ¬ s.eta_b2c k current_epoch ≥
      s.effective_theta1 k * (UCB_B1.lambda_val - 1) / UCB_B1.lambda_val

/-- `c_k_n_b2c` (with the `(r_hat - hat_omega)^+` positive part). -/
def c_b2c (s : UCB_B2C) (k : ℕ) (current_epoch : ℕ) : EReal :=
  if ¬ s.stability_condition_met k current_epoch then (⊤ : EReal)
  else
    ((1.4 * (s.epsilon_b2c k current_epoch +
        max 0 (s.r_hat k - s.hat_omega k) * s.eta_b2c k current_epoch) /
      s.effective_theta1 k : ℝ) : EReal)

/-- `ucb_values[k] = r_hat_k + c_k_n_b2c`. -/
def ucb_value (s : UCB_B2C) (k : ℕ) (current_epoch : ℕ) : EReal :=
  ((s.r_hat k : ℝ) : EReal) + s.c_b2c k current_epoch

/-- `UCB_B2C.select_arm`. -/
def select_arm (s : UCB_B2C) (current_total_cost : ℝ) (current_epoch : ℕ) : ℕ :=
  match (List.range s.num_arms).find? (fun k => s.arm_pulls.getD k 0 == 0) with
  | some k => k
  | none => npArgmax ((List.range s.num_arms).map
      (fun k => s.ucb_value k current_epoch))

/-- `UCB_B2C.update_state`: append the observation to the buffers. -/
def update_state (s : UCB_B2C) (chosen_arm : ℕ) (cost reward : ℝ) : UCB_B2C :=
  { s with
    arm_pulls := s.arm_pulls.set chosen_arm (s.arm_pulls.getD chosen_arm 0 + 1)
    arm_samples_X := s.arm_samples_X.set chosen_arm (s.arm_samples_X.getD chosen_arm [] ++ [cost])
    arm_samples_R := s.arm_samples_R.set chosen_arm (s.arm_samples_R.getD chosen_arm [] ++ [reward]) }

/-- `UCB_B2C.reset`: zero the pull counts and clear the `num_arms`
per-arm buffers. -/
def reset (s : UCB_B2C) : UCB_B2C :=
  { s with
    arm_pulls := s.arm_pulls.map (fun _ => 0)
    arm_samples_X := s.arm_samples_X.map (fun _ => [])
    arm_samples_R := s.arm_samples_R.map (fun _ => []) }

end UCB_B2C

/-! ## UCB_M1 (src/algorithms/ucb_m1.py) -/

/-- The state of a `UCB_M1` instance: known second moments plus per-arm
sample buffers for the median-of-means estimators. -/
@[ext]
structure UCB_M1 where
  num_arms : ℕ
  alpha : ℝ
  b_min_cost : ℝ
  arm_samples_X : List (List ℝ)
  arm_samples_R : List (List ℝ)
  arm_pulls : List ℕ
  var_X : List ℝ
  var_R : List ℝ
  cov_XR : List ℝ
  omega_k : List ℝ
  V_XR : List ℝ

namespace UCB_M1

/-- `UCB_M1.__init__`. -/
def init (num_arms : ℕ) (arm_configs : List MomentArmConfig)
    (algorithm_params : AlgorithmParams) : UCB_M1 :=
  { num_arms := num_arms
    alpha := algorithm_params.alpha.getD 2.1
    b_min_cost := algorithm_params.b_min_cost.getD 0.1
    arm_samples_X := List.replicate num_arms []
    arm_samples_R := List.replicate num_arms []
    arm_pulls := List.replicate num_arms 0
    var_X := arm_configs.map (fun c => c.var_X)
    var_R := arm_configs.map (fun c => c.var_R)
    cov_XR := arm_configs.map (fun c => c.cov_XR)
    omega_k := arm_configs.map (fun c =>
      if c.var_X > 1e-9 then c.cov_XR / c.var_X else 0)
    V_XR := arm_configs.map (fun c =>
      let om := if c.var_X > 1e-9 then c.cov_XR / c.var_X else 0
      max 0 (if c.var_X > 1e-9 then c.var_R - om ^ 2 * c.var_X else c.var_R)) }

/-- Pull count of arm `k`. -/
def T_k (s : UCB_M1) (k : ℕ) : ℕ := s.arm_pulls.getD k 0

/-- Number of median-of-means groups:
`m = int(floor(3.5 * alpha * log(n))) + 1`, then `m = max(1, min(m, int(T_k)))`. -/
def num_groups (alpha : ℝ) (current_epoch : ℕ) (T : ℕ) : ℕ :=
  (max 1 (min (⌊3.5 * alpha * Real.log current_epoch⌋ + 1) (T : ℤ))).toNat

/-- `_get_median_rate_estimator`: the median over `m` groups of
`max(0, group mean R) / max(b_min_cost, group mean X)`, with the plain
empirical-mean fallbacks of the source. -/
def median_rate_estimator (s : UCB_M1) (k : ℕ) (current_epoch : ℕ) : ℝ :=
  let T := s.T_k k
  if T = 0 then 0
  else
    let m := num_groups s.alpha current_epoch T
    let group_size := T / m
    if group_size = 0 then
      max 0 (npMean (s.arm_samples_R.getD k [])) /
        max s.b_min_cost (npMean (s.arm_samples_X.getD k []))
    else
      npMedian ((List.range m).map (fun j =>
        let group_X := ((s.arm_samples_X.getD k []).drop (j * group_size)).take group_size
        let group_R := ((s.arm_samples_R.getD k []).drop (j * group_size)).take group_size
        max 0 (npMean group_R) / max s.b_min_cost (npMean group_X)))

/-- `_get_median_empirical_X_estimator`: the median over `m` groups of
the group means of the costs (with the source's fallbacks). -/
def median_empirical_X (s : UCB_M1) (k : ℕ) (current_epoch : ℕ) : ℝ :=
  let T := s.T_k k
  if T = 0 then s.b_min_cost
  else
    let m := num_groups s.alpha current_epoch T
    let group_size := T / m
    if group_size = 0 then
      max s.b_min_cost (npMean (s.arm_samples_X.getD k []))
    else
      npMedian ((List.range m).map (fun j =>
        npMean (((s.arm_samples_X.getD k []).drop (j * group_size)).take group_size)))

/-- `epsilon_k_n_M = 11 * sqrt(alpha * V_XR * log(n) / T_k)`. -/
def epsilon_M (s : UCB_M1) (k : ℕ) (current_epoch : ℕ) : ℝ :=
  11 * Real.sqrt (s.alpha * s.V_XR.getD k 0 * Real.log current_epoch / (s.T_k k : ℝ))

/-- `eta_k_n_M = 11 * sqrt(alpha * var_X * log(n) / T_k)`. -/
def eta_M (s : UCB_M1) (k : ℕ) (current_epoch : ℕ) : ℝ :=
  11 * Real.sqrt (s.alpha * s.var_X.getD k 0 * Real.log current_epoch / (s.T_k k : ℝ))

/-- `effective_theta1 = max(b_min_cost, median_emp_X_k)`. -/
def effective_theta1 (s : UCB_M1) (k : ℕ) (current_epoch : ℕ) : ℝ :=
  max s.b_min_cost (s.median_empirical_X k current_epoch)

/-- The M1 stability check: fails exactly when
`eta_k_n_M >= effective_theta1 * (lambda_val - 1) / lambda_val`. -/
def stability_condition_met (s : UCB_M1) (k : ℕ) (current_epoch : ℕ) : Prop :=
  ¬ s.eta_M k current_epoch ≥
      s.effective_theta1 k current_epoch * (UCB_B1.lambda_val - 1) / UCB_B1.lambda_val

/-- `c_k_n_M = (2 * sqrt(2)) * (epsilon + (r_bar - omega) * eta) / effective_theta1`,
or `np.inf` when the stability check failed. -/
def c_M (s : UCB_M1) (k : ℕ) (current_epoch : ℕ) : EReal :=
  if ¬ s.stability_condition_met k current_epoch then (⊤ : EReal)
  else
    ((2 * Real.sqrt 2 *
        (s.epsilon_M k current_epoch +
          (s.median_rate_estimator k current_epoch - s.omega_k.getD k 0) *
            s.eta_M k current_epoch) /
      s.effective_theta1 k current_epoch : ℝ) : EReal)

/-- `ucb_values[k] = r_bar_k + c_k_n_M`. -/
def ucb_value (s : UCB_M1) (k : ℕ) (current_epoch : ℕ) : EReal :=
  ((s.median_rate_estimator k current_epoch : ℝ) : EReal) + s.c_M k current_epoch

/-- `UCB_M1.select_arm`. -/
def select_arm (s : UCB_M1) (current_total_cost : ℝ) (current_epoch : ℕ) : ℕ :=
  match (List.range s.num_arms).find? (fun k => s.arm_pulls.getD k 0 == 0) with
  | some k => k
  | none => npArgmax ((List.range s.num_arms).map
      (fun k => s.ucb_value k current_epoch))

/-- `UCB_M1.update_state`: append the observation to the buffers. -/
def update_state (s : UCB_M1) (chosen_arm : ℕ) (cost reward : ℝ) : UCB_M1 :=
  { s with
    arm_pulls := s.arm_pulls.set chosen_arm (s.arm_pulls.getD chosen_arm 0 + 1)
    arm_samples_X := s.arm_samples_X.set chosen_arm (s.arm_samples_X.getD chosen_arm [] ++ [cost])
    arm_samples_R := s.arm_samples_R.set chosen_arm (s.arm_samples_R.getD chosen_arm [] ++ [reward]) }

/-- `UCB_M1.reset`. -/
def reset (s : UCB_M1) : UCB_M1 :=
  { s with
    arm_pulls := s.arm_pulls.map (fun _ => 0)
    arm_samples_X := s.arm_samples_X.map (fun _ => [])
    arm_samples_R := s.arm_samples_R.map (fun _ => []) }

end UCB_M1

/-! ## Environment (src/environments/general_cost_reward_env.py and
src/environments/bandit_environment.py)

Python's `config['params']` dict is embedded as a record of `Option ℝ`
fields (`none` = key absent). -/

structure ArmDistParams where
  mean_X : Option ℝ := none
  mean_R : Option ℝ := none
  var_X : Option ℝ := none
  var_R : Option ℝ := none
  cov_XR : Option ℝ := none
  alpha_pareto_X : Option ℝ := none
  loc_pareto_X : Option ℝ := none
  mean_lognormal_R : Option ℝ := none
  sigma_lognormal_R : Option ℝ := none
  min_X : Option ℝ := none
  max_X : Option ℝ := none
  min_R : Option ℝ := none
  max_R : Option ℝ := none
  correlation : Option ℝ := none

/-- One entry of the `arm_configs` list. -/
structure EnvArmConfig where
  name : String
  type : String
  params : ArmDistParams

/-- One preprocessed entry of `self._arm_samplers`. -/
inductive ArmSampler where
  | gaussian (mean_X mean_R var_X cov_XR var_R : ℝ)
  | heavy_tailed (alpha_pareto_X loc_pareto_X mean_lognormal_R sigma_lognormal_R correlation : ℝ)
  | bounded_uniform (min_X max_X min_R max_R correlation : ℝ)

/-- The state of `np.random.default_rng(seed)`: the seed it was created
from and how many draws have been consumed.  Only identity/equality of
this state matters to the claims. -/
structure RngState where
  seed : Option ℕ
  steps : ℕ

/-- `np.linalg.cholesky` succeeds on a symmetric 2x2 matrix
`[[a, b], [b, c]]` exactly when the matrix is positive definite:
`a > 0` and `a*c - b² > 0`. -/
def cholesky_ok (a b c : ℝ) : Prop := 0 < a ∧ 0 < a * c - b * b

/-- A constructed `GeneralCostRewardEnvironment`.  `initial_seed` models
the `_initial_seed` attribute tested by `reset()` via `hasattr`:
`none` means the attribute is absent (the constructor never assigns it),
`some s` would mean the attribute is present holding `s` (where `s` is
itself an optional seed, `None` in Python being `none`).  `warnings`
records the `print` output of the constructor.  The benchmark fields
`optimal_arm_index` / `optimal_arm_expected_cost` of the base class are
not embedded; no claim mentions them. -/
structure GeneralCostRewardEnvironment where
  num_arms : ℕ
  arm_configs : List EnvArmConfig
  true_reward_rates : List EReal
  optimal_reward_rate : EReal
  arm_samplers : List ArmSampler
  rng : RngState
  initial_seed : Option (Option ℕ)
  warnings : List String

namespace GeneralCostRewardEnvironment

/-- The per-arm body of the constructor's preprocessing loop: the
`mean_X`/`mean_R` presence check, the non-positive-cost warning
(a `print`, not an exception), and the family dispatch with its
per-family required-parameter checks and the Gaussian Cholesky
validation.  Missing dict keys surface as errors, standing in for the
Python `KeyError`/`ValueError`. -/
def build_sampler (k : ℕ) (cfg : EnvArmConfig) : Except String (ArmSampler × List String) :=
  match cfg.params.mean_X, cfg.params.mean_R with
  | some mx, some _ =>
    let warns := if mx ≤ 0 then
        ["Warning: Arm " ++ toString k ++ " has non-positive expected cost."] else []
    if cfg.type = "gaussian" then
      match cfg.params.var_X, cfg.params.cov_XR, cfg.params.var_R with
      | some vx, some cv, some vr =>
        if cholesky_ok vx cv vr then
          Except.ok (ArmSampler.gaussian (cfg.params.mean_X.getD 0)
            (cfg.params.mean_R.getD 0) vx cv vr, warns)
        else
          Except.error ("Covariance matrix for arm " ++ toString k ++
            " is not positive semi-definite.")
      | _, _, _ => Except.error "KeyError: gaussian arm missing covariance parameters."
    else if cfg.type = "heavy_tailed" then
      match cfg.params.alpha_pareto_X, cfg.params.loc_pareto_X,
          cfg.params.mean_lognormal_R, cfg.params.sigma_lognormal_R with
      | some ap, some lp, some ml, some sl =>
        Except.ok (ArmSampler.heavy_tailed ap lp ml sl (cfg.params.correlation.getD 0), warns)
      | _, _, _, _ =>
        Except.error ("Heavy-tailed arm " ++ toString k ++ " config missing required parameters.")
    else if cfg.type = "bounded_uniform" then
      match cfg.params.min_X, cfg.params.max_X, cfg.params.min_R, cfg.params.max_R with
      | some mnX, some mxX, some mnR, some mxR =>
        Except.ok (ArmSampler.bounded_uniform mnX mxX mnR mxR (cfg.params.correlation.getD 0), warns)
      | _, _, _, _ =>
        Except.error ("Bounded uniform arm " ++ toString k ++ " config missing required parameters.")
    else
      Except.error ("Unsupported arm type: " ++ cfg.type)
  | _, _ =>
    Except.error ("Arm " ++ toString k ++ " config missing mean_X or mean_R in params.")

/-- Folds `build_sampler` over the config list. -/
def build_samplers (k : ℕ) : List EnvArmConfig → Except String (List ArmSampler × List String)
  | [] => Except.ok ([], [])
  | cfg :: rest =>
    match build_sampler k cfg with
    | Except.error e => Except.error e
    | Except.ok (smp, ws) =>
      match build_samplers (k + 1) rest with
      | Except.error e => Except.error e
      | Except.ok (smps, wss) => Except.ok (smp :: smps, ws ++ wss)

/-- `GeneralCostRewardEnvironment.__init__` (including the
`BanditEnvironment.__init__` base-class validations and true-rate
computation; `-np.inf` for a non-positive `mean_X` is `⊥ : EReal`).
Construction errors are `Except.error`. -/
def init (num_arms : ℕ) (arm_configs : List EnvArmConfig) (seed : Option ℕ) :
    Except String GeneralCostRewardEnvironment :=
  if num_arms = 0 then Except.error "num_arms must be a positive integer."
  else if arm_configs.length ≠ num_arms then
    Except.error "Length of arm_configs must match num_arms."
  else
    match build_samplers 0 arm_configs with
    | Except.error e => Except.error e
    | Except.ok (samplers, warns) =>
      let rates : List EReal := arm_configs.map (fun c =>
        match c.params.mean_X, c.params.mean_R with
        | some mx, some mr => if 0 < mx then ((mr / mx : ℝ) : EReal) else (⊥ : EReal)
        | _, _ => (⊥ : EReal))
      Except.ok
        { num_arms := num_arms
          arm_configs := arm_configs
          true_reward_rates := rates
          optimal_reward_rate := rates.foldl max ⊥
          arm_samplers := samplers
          rng := { seed := seed, steps := 0 }
          initial_seed := none
          warnings := warns }

/-- `GeneralCostRewardEnvironment.reset`: re-seed the generator only if
the `_initial_seed` attribute exists and is not `None`; otherwise leave
the state untouched. -/
def reset (e : GeneralCostRewardEnvironment) : GeneralCostRewardEnvironment :=
  match e.initial_seed with
  | some (some s) => { e with rng := { seed := some s, steps := 0 } }
  | _ => e

end GeneralCostRewardEnvironment

/-- The heavy-tailed branch of `pull_arm` (lines 132-185), as a function
of the raw generator draws: `pareto_draw` is `rng.pareto(alpha)` (always
`≥ 0`), `lognormal_draw` is `rng.lognormal(mean, sigma)`, and
`normal_draw` is the shared `rng.normal(0, 1)` common factor.
`cost = (pareto_draw + 1) * loc_pareto_X`; when `correlation != 0` the
scaled common factor is added to both components. -/
def heavy_tailed_sample (loc_pareto_X correlation : ℝ)
    (pareto_draw lognormal_draw normal_draw : ℝ) : ℝ × ℝ :=
  let cost := (pareto_draw + 1) * loc_pareto_X
  let reward := lognormal_draw
  if correlation ≠ 0 then
    (cost + correlation * normal_draw, reward + correlation * normal_draw)
  else
    (cost, reward)

/-! ## Operation sequences (for the cold-start and reset claims) -/

/-- One call of the common algorithm contract. -/
inductive BanditOp where
  | sel (current_total_cost : ℝ) (current_epoch : ℕ)
  | upd (chosen_arm : ℕ) (cost reward : ℝ)

/-- Run a sequence of calls on a `UCB_B1` state, collecting the arm
indices the `select_arm` calls return. -/
def UCB_B1.runOps (s : UCB_B1) : List BanditOp → UCB_B1 × List ℕ
  | [] => (s, [])
  | BanditOp.sel c n :: rest =>
    let out := UCB_B1.runOps s rest
    (out.1, s.select_arm c n :: out.2)
  | BanditOp.upd k c r :: rest => UCB_B1.runOps (s.update_state k c r) rest

/-- Run a sequence of calls on a `UCB_B2` state. -/
def UCB_B2.runOps (s : UCB_B2) : List BanditOp → UCB_B2 × List ℕ
  | [] => (s, [])
  | BanditOp.sel c n :: rest =>
    let out := UCB_B2.runOps s rest
    (out.1, s.select_arm c n :: out.2)
  | BanditOp.upd k c r :: rest => UCB_B2.runOps (s.update_state k c r) rest

/-- Run a sequence of calls on a `UCB_B2C` state. -/
def UCB_B2C.runOps (s : UCB_B2C) : List BanditOp → UCB_B2C × List ℕ
  | [] => (s, [])
  | BanditOp.sel c n :: rest =>
    let out := UCB_B2C.runOps s rest
    (out.1, s.select_arm c n :: out.2)
  | BanditOp.upd k c r :: rest => UCB_B2C.runOps (s.update_state k c r) rest

/-- Run a sequence of calls on a `UCB_M1` state. -/
def UCB_M1.runOps (s : UCB_M1) : List BanditOp → UCB_M1 × List ℕ
  | [] => (s, [])
  | BanditOp.sel c n :: rest =>
    let out := UCB_M1.runOps s rest
    (out.1, s.select_arm c n :: out.2)
  | BanditOp.upd k c r :: rest => UCB_M1.runOps (s.update_state k c r) rest

/-- `i` rounds of "select, then update the returned arm with the round's
cost/reward", with arbitrary per-round arguments fed to `select_arm`.
Returns the final state and the list of selected arms. -/
def UCB_B1.cold_run (costs rewards ctc : ℕ → ℝ) (epochs : ℕ → ℕ) :
    UCB_B1 → ℕ → UCB_B1 × List ℕ
  | s, 0 => (s, [])
  | s, i + 1 =>
    let out := UCB_B1.cold_run costs rewards ctc epochs s i
    let k := out.1.select_arm (ctc i) (epochs i)
    (out.1.update_state k (costs i) (rewards i), out.2 ++ [k])

/-- Cold-start rounds for `UCB_B2`. -/
def UCB_B2.cold_run (costs rewards ctc : ℕ → ℝ) (epochs : ℕ → ℕ) :
    UCB_B2 → ℕ → UCB_B2 × List ℕ
  | s, 0 => (s, [])
  | s, i + 1 =>
    let out := UCB_B2.cold_run costs rewards ctc epochs s i
    let k := out.1.select_arm (ctc i) (epochs i)
    (out.1.update_state k (costs i) (rewards i), out.2 ++ [k])

/-- Cold-start rounds for `UCB_B2C`. -/
def UCB_B2C.cold_run (costs rewards ctc : ℕ → ℝ) (epochs : ℕ → ℕ) :
    UCB_B2C → ℕ → UCB_B2C × List ℕ
  | s, 0 => (s, [])
  | s, i + 1 =>
    let out := UCB_B2C.cold_run costs rewards ctc epochs s i
    let k := out.1.select_arm (ctc i) (epochs i)
    (out.1.update_state k (costs i) (rewards i), out.2 ++ [k])

/-- Cold-start rounds for `UCB_M1`. -/
def UCB_M1.cold_run (costs rewards ctc : ℕ → ℝ) (epochs : ℕ → ℕ) :
    UCB_M1 → ℕ → UCB_M1 × List ℕ
  | s, 0 => (s, [])
  | s, i + 1 =>
    let out := UCB_M1.cold_run costs rewards ctc epochs s i
    let k := out.1.select_arm (ctc i) (epochs i)
    (out.1.update_state k (costs i) (rewards i), out.2 ++ [k])

/-- Invariant of the cold-start phase: after `i` rounds the pull-count
array has length `K`, arms below `i` have one pull and the rest none. -/
def coldPulls (K i : ℕ) (pulls : List ℕ) : Prop :=
  pulls.length = K ∧ ∀ j, pulls.getD j 0 = if j < i then 1 else 0

/-! ## Theorems for claims C7 and C8 -/

/-- C8: `calculate_empirical_variance(sumSq, sum, n)` returns
`max(0, sumSq/n - (sum/n)^2)` when `n ≥ 2` and `0` when `n < 2`; its
result is always non-negative; and `calculate_empirical_variance 14 6 3
= 2/3`. -/
theorem empirical_variance_spec :
    (∀ (sumSq sum : ℝ) (n : ℕ),
      (2 ≤ n →
        calculate_empirical_variance sumSq sum n =
          max 0 (sumSq / n - (sum / n) ^ 2)) ∧
      (n < 2 → calculate_empirical_variance sumSq sum n = 0) ∧
      0 ≤ calculate_empirical_variance sumSq sum n) ∧
    calculate_empirical_variance 14 6 3 = 2 / 3 := by
  constructor
  · intro sumSq sum n
    refine ⟨fun h2 => ?_, fun hlt => ?_, ?_⟩
    · rw [calculate_empirical_variance, if_neg (by omega)]
    · rw [calculate_empirical_variance, if_pos hlt]
    · rw [calculate_empirical_variance]
      split
      · exact le_refl 0
      · exact le_max_left _ _
  · rw [calculate_empirical_variance, if_neg (by norm_num)]
    rw [show ((3 : ℕ) : ℝ) = 3 by norm_num]
    rw [max_eq_right (by norm_num)]
    norm_num

/-- Witness for C8: instantiates `empirical_variance_spec` at
`(14, 6, 3)` and discharges the `2 ≤ 3` hypothesis. -/
theorem empirical_variance_spec_witness :
    calculate_empirical_variance 14 6 3 =
      max 0 ((14 : ℝ) / 3 - ((6 : ℝ) / 3) ^ 2) :=
  (empirical_variance_spec.1 14 6 3).1 (by norm_num)

/-- C7: for running sums coming from `n ≥ 2` samples that exactly satisfy
`R = c·X` (so `sum_R = c·sum_X`, `sum_RR = c²·sum_XX`, `sum_XR = c·sum_XX`),
with empirical variance of `X` at least the `1e-9` threshold, the
empirical LMMSE slope equals `c` and the empirical LMMSE residual
variance computed with that slope equals `0`. -/
theorem lmmse_exact_linear (sum_X sum_XX c : ℝ) (n : ℕ)
    (h2 : 2 ≤ n)
    (hvar : 1e-9 ≤ calculate_empirical_variance sum_XX sum_X n) :
    calculate_lmmse_omega_empirical sum_X (c * sum_X) sum_XX
        (c ^ 2 * sum_XX) (c * sum_XX) n = c ∧
    calculate_lmmse_variance_reduction_empirical sum_X (c * sum_X) sum_XX
        (c ^ 2 * sum_XX) (c * sum_XX) n
        (calculate_lmmse_omega_empirical sum_X (c * sum_X) sum_XX
          (c ^ 2 * sum_XX) (c * sum_XX) n) = 0 := by
  have hn2 : ¬ n < 2 := by omega
  have hn0 : n ≠ 0 := by omega
  have hnR : (n : ℝ) ≠ 0 := Nat.cast_ne_zero.mpr hn0
  have hvpos : (0 : ℝ) < calculate_empirical_variance sum_XX sum_X n :=
    lt_of_lt_of_le (by norm_num) hvar
  have hv : calculate_empirical_variance sum_XX sum_X n =
      sum_XX / n - (sum_X / n) ^ 2 := by
    rw [calculate_empirical_variance, if_neg hn2]
    rcases le_or_lt (sum_XX / n - (sum_X / n) ^ 2) 0 with h | h
    · exfalso
      have := hvpos
      rw [calculate_empirical_variance, if_neg hn2, max_eq_left h] at this
      exact lt_irrefl 0 this
    · exact max_eq_right h.le
  have hnotlt : ¬ calculate_empirical_variance sum_XX sum_X n < 1e-9 :=
    not_lt.mpr hvar
  have hrawpos : (0 : ℝ) < sum_XX / n - (sum_X / n) ^ 2 := hv ▸ hvpos
  have homega : calculate_lmmse_omega_empirical sum_X (c * sum_X) sum_XX
      (c ^ 2 * sum_XX) (c * sum_XX) n = c := by
    rw [calculate_lmmse_omega_empirical, if_neg hn2]
    simp only [calculate_empirical_mean, if_neg hn0]
    rw [show calculate_empirical_variance sum_XX sum_X n =
        sum_XX / n - (sum_X / n) ^ 2 from hv] at hnotlt ⊢
    rw [if_neg hnotlt]
    have : c * sum_XX / n - sum_X / n * (c * sum_X / n) =
        c * (sum_XX / n - (sum_X / n) ^ 2) := by ring
    rw [this, mul_div_assoc, div_self (ne_of_gt hrawpos), mul_one]
  refine ⟨homega, ?_⟩
  rw [homega]
  rw [calculate_lmmse_variance_reduction_empirical, if_neg hn2]
  have hvarR : calculate_empirical_variance (c ^ 2 * sum_XX) (c * sum_X) n =
      c ^ 2 * (sum_XX / n - (sum_X / n) ^ 2) := by
    rw [calculate_empirical_variance, if_neg hn2]
    have : c ^ 2 * sum_XX / n - (c * sum_X / n) ^ 2 =
        c ^ 2 * (sum_XX / n - (sum_X / n) ^ 2) := by ring
    rw [this, max_eq_right (by positivity)]
  rw [hvarR, hv]
  simp [max_eq_left, sub_self]

/-- Witness for C7: samples `X = [1,2]`, `R = 3·X`, so `sum_X = 3`,
`sum_XX = 5`, `n = 2`; the empirical variance `5/2 - (3/2)² = 1/4` is
above the threshold, and the theorem yields slope `3` and residual `0`. -/
theorem lmmse_exact_linear_witness :
    calculate_lmmse_omega_empirical 3 (3 * 3) 5 (3 ^ 2 * 5) (3 * 5) 2 = 3 ∧
    calculate_lmmse_variance_reduction_empirical 3 (3 * 3) 5 (3 ^ 2 * 5) (3 * 5) 2
      (calculate_lmmse_omega_empirical 3 (3 * 3) 5 (3 ^ 2 * 5) (3 * 5) 2) = 0 :=
  lmmse_exact_linear 3 5 3 2 (by norm_num)
    (by
      rw [calculate_empirical_variance, if_neg (by norm_num)]
      rw [show ((2 : ℕ) : ℝ) = 2 by norm_num]
      rw [max_eq_right (by norm_num)]
      norm_num)

/-! ## List helpers for the cold-start and frame proofs -/

theorem cb_getD_set_self {α : Type} (l : List α) (i : ℕ) (a d : α)
    (h : i < l.length) : (l.set i a).getD i d = a := by
  simp [List.getD_eq_getElem?_getD, List.getElem?_set, h]

theorem cb_getD_set_ne {α : Type} (l : List α) (i j : ℕ) (a d : α)
    (h : i ≠ j) : (l.set i a).getD j d = l.getD j d := by
  simp [List.getD_eq_getElem?_getD, List.getElem?_set, h]

theorem cb_getD_replicate {α : Type} (K j : ℕ) (a d : α) :
    (List.replicate K a).getD j d = if j < K then a else d := by
  simp only [List.getD_eq_getElem?_getD, List.getElem?_replicate]
  split <;> simp

theorem cb_find_range' (p : ℕ → Bool) :
    ∀ (n s i : ℕ), s ≤ i → i < s + n →
      (∀ j, s ≤ j → j < i → p j = false) → p i = true →
      (List.range' s n).find? p = some i := by
  intro n
  induction n with
  | zero => intro s i h1 h2 _ _; omega
  | succ n ih =>
    intro s i h1 h2 hmin hp
    rw [List.range'_succ]
    by_cases hs : s = i
    · subst hs
      exact List.find?_cons_of_pos _ hp
    · have hps : p s = false := hmin s le_rfl (lt_of_le_of_ne h1 hs)
      rw [List.find?_cons_of_neg _ (by simp [hps])]
      exact ih (s + 1) i (by omega) (by omega) (fun j hj1 hj2 => hmin j (by omega) hj2) hp

theorem cb_find_range (p : ℕ → Bool) (K i : ℕ) (hi : i < K)
    (hmin : ∀ j, j < i → p j = false) (hp : p i = true) :
    (List.range K).find? p = some i := by
  rw [List.range_eq_range']
  exact cb_find_range' p K 0 i (Nat.zero_le _) (by omega)
    (fun j _ hj => hmin j hj) hp

theorem cb_coldPulls_zero (K : ℕ) : coldPulls K 0 (List.replicate K 0) := by
  refine ⟨by simp, fun j => ?_⟩
  rw [cb_getD_replicate]
  split <;> simp

theorem cb_cold_select (K i : ℕ) (pulls : List ℕ) (hi : i < K)
    (h : coldPulls K i pulls) :
    (List.range K).find? (fun k => pulls.getD k 0 == 0) = some i := by
  apply cb_find_range _ _ _ hi
  · intro j hj
    rw [show pulls.getD j 0 = if j < i then 1 else 0 from h.2 j, if_pos hj]
    rfl
  · rw [show pulls.getD i 0 = if i < i then 1 else 0 from h.2 i,
      if_neg (lt_irrefl i)]
    rfl

theorem cb_cold_update (K i : ℕ) (pulls : List ℕ) (hi : i < K)
    (h : coldPulls K i pulls) :
    coldPulls K (i + 1) (pulls.set i (pulls.getD i 0 + 1)) := by
  refine ⟨by simp [h.1], fun j => ?_⟩
  by_cases hj : j = i
  · rw [hj]
    rw [cb_getD_set_self _ _ _ _ (by rw [h.1]; exact hi),
      show pulls.getD i 0 = if i < i then 1 else 0 from h.2 i]
    simp
  · rw [cb_getD_set_ne _ _ _ _ _ (fun hij => hj hij.symm), h.2 j]
    by_cases hji : j < i
    · simp [hji, Nat.lt_succ_of_lt hji]
    · have hns : ¬ j < i + 1 := by omega
      simp [hji, hns]

/-! ## Cold-start inductions, one per variant -/

theorem cb_b1_cold (costs rewards ctc : ℕ → ℝ) (epochs : ℕ → ℕ)
    (s0 : UCB_B1) (K : ℕ) (hK : s0.num_arms = K)
    (h0 : coldPulls K 0 s0.arm_pulls) :
    ∀ i, i ≤ K →
      coldPulls K i ((UCB_B1.cold_run costs rewards ctc epochs s0 i).1.arm_pulls) ∧
      (UCB_B1.cold_run costs rewards ctc epochs s0 i).1.num_arms = K ∧
      (UCB_B1.cold_run costs rewards ctc epochs s0 i).2 = List.range i := by
  intro i
  induction i with
  | zero => intro _; exact ⟨h0, hK, by simp [UCB_B1.cold_run]⟩
  | succ i ih =>
    intro hle
    obtain ⟨hinv, hnum, hsel⟩ := ih (by omega)
    have hiK : i < K := by omega
    have hfind := cb_cold_select K i _ hiK hinv
    have hselect :
        (UCB_B1.cold_run costs rewards ctc epochs s0 i).1.select_arm (ctc i) (epochs i) = i := by
      rw [UCB_B1.select_arm, hnum, hfind]
    refine ⟨?_, ?_, ?_⟩
    · simp only [UCB_B1.cold_run, hselect]
      exact cb_cold_update K i _ hiK hinv
    · simp only [UCB_B1.cold_run, hselect, UCB_B1.update_state, hnum]
    · simp only [UCB_B1.cold_run, hselect, hsel, List.range_succ]

theorem cb_b2_cold (costs rewards ctc : ℕ → ℝ) (epochs : ℕ → ℕ)
    (s0 : UCB_B2) (K : ℕ) (hK : s0.num_arms = K)
    (h0 : coldPulls K 0 s0.arm_pulls) :
    ∀ i, i ≤ K →
      coldPulls K i ((UCB_B2.cold_run costs rewards ctc epochs s0 i).1.arm_pulls) ∧
      (UCB_B2.cold_run costs rewards ctc epochs s0 i).1.num_arms = K ∧
      (UCB_B2.cold_run costs rewards ctc epochs s0 i).2 = List.range i := by
  intro i
  induction i with
  | zero => intro _; exact ⟨h0, hK, by simp [UCB_B2.cold_run]⟩
  | succ i ih =>
    intro hle
    obtain ⟨hinv, hnum, hsel⟩ := ih (by omega)
    have hiK : i < K := by omega
    have hfind := cb_cold_select K i _ hiK hinv
    have hselect :
        (UCB_B2.cold_run costs rewards ctc epochs s0 i).1.select_arm (ctc i) (epochs i) = i := by
      rw [UCB_B2.select_arm, hnum, hfind]
    refine ⟨?_, ?_, ?_⟩
    · simp only [UCB_B2.cold_run, hselect]
      exact cb_cold_update K i _ hiK hinv
    · simp only [UCB_B2.cold_run, hselect, UCB_B2.update_state, hnum]
    · simp only [UCB_B2.cold_run, hselect, hsel, List.range_succ]

theorem cb_b2c_cold (costs rewards ctc : ℕ → ℝ) (epochs : ℕ → ℕ)
    (s0 : UCB_B2C) (K : ℕ) (hK : s0.num_arms = K)
    (h0 : coldPulls K 0 s0.arm_pulls) :
    ∀ i, i ≤ K →
      coldPulls K i ((UCB_B2C.cold_run costs rewards ctc epochs s0 i).1.arm_pulls) ∧
      (UCB_B2C.cold_run costs rewards ctc epochs s0 i).1.num_arms = K ∧
      (UCB_B2C.cold_run costs rewards ctc epochs s0 i).2 = List.range i := by
  intro i
  induction i with
  | zero => intro _; exact ⟨h0, hK, by simp [UCB_B2C.cold_run]⟩
  | succ i ih =>
    intro hle
    obtain ⟨hinv, hnum, hsel⟩ := ih (by omega)
    have hiK : i < K := by omega
    have hfind := cb_cold_select K i _ hiK hinv
    have hselect :
        (UCB_B2C.cold_run costs rewards ctc epochs s0 i).1.select_arm (ctc i) (epochs i) = i := by
      rw [UCB_B2C.select_arm, hnum, hfind]
    refine ⟨?_, ?_, ?_⟩
    · simp only [UCB_B2C.cold_run, hselect]
      exact cb_cold_update K i _ hiK hinv
    · simp only [UCB_B2C.cold_run, hselect, UCB_B2C.update_state, hnum]
    · simp only [UCB_B2C.cold_run, hselect, hsel, List.range_succ]

theorem cb_m1_cold (costs rewards ctc : ℕ → ℝ) (epochs : ℕ → ℕ)
    (s0 : UCB_M1) (K : ℕ) (hK : s0.num_arms = K)
    (h0 : coldPulls K 0 s0.arm_pulls) :
    ∀ i, i ≤ K →
      coldPulls K i ((UCB_M1.cold_run costs rewards ctc epochs s0 i).1.arm_pulls) ∧
      (UCB_M1.cold_run costs rewards ctc epochs s0 i).1.num_arms = K ∧
      (UCB_M1.cold_run costs rewards ctc epochs s0 i).2 = List.range i := by
  intro i
  induction i with
  | zero => intro _; exact ⟨h0, hK, by simp [UCB_M1.cold_run]⟩
  | succ i ih =>
    intro hle
    obtain ⟨hinv, hnum, hsel⟩ := ih (by omega)
    have hiK : i < K := by omega
    have hfind := cb_cold_select K i _ hiK hinv
    have hselect :
        (UCB_M1.cold_run costs rewards ctc epochs s0 i).1.select_arm (ctc i) (epochs i) = i := by
      rw [UCB_M1.select_arm, hnum, hfind]
    refine ⟨?_, ?_, ?_⟩
    · simp only [UCB_M1.cold_run, hselect]
      exact cb_cold_update K i _ hiK hinv
    · simp only [UCB_M1.cold_run, hselect, UCB_M1.update_state, hnum]
    · simp only [UCB_M1.cold_run, hselect, hsel, List.range_succ]

/-- C2: for every algorithm variant, every number of arms `K`, every
arm-config list and every algorithm-parameter map, the first `K`
"select then update the returned arm" rounds select arms `0, 1, …, K-1`
in ascending order, regardless of the observed costs and rewards (and of
the `current_total_cost` / `current_epoch` arguments supplied). -/
theorem cold_start_first_K_arms (K : ℕ) (costs rewards ctc : ℕ → ℝ)
    (epochs : ℕ → ℕ) (cfgsM : List MomentArmConfig)
    (cfgsB : List BoundArmConfig) (params : AlgorithmParams) :
    (UCB_B1.cold_run costs rewards ctc epochs (UCB_B1.init K cfgsM params) K).2 =
      List.range K ∧
    (UCB_B2.cold_run costs rewards ctc epochs (UCB_B2.init K cfgsB params) K).2 =
      List.range K ∧
    (UCB_B2C.cold_run costs rewards ctc epochs (UCB_B2C.init K cfgsB params) K).2 =
      List.range K ∧
    (UCB_M1.cold_run costs rewards ctc epochs (UCB_M1.init K cfgsM params) K).2 =
      List.range K :=
  ⟨(cb_b1_cold costs rewards ctc epochs _ K rfl (cb_coldPulls_zero K) K le_rfl).2.2,
   (cb_b2_cold costs rewards ctc epochs _ K rfl (cb_coldPulls_zero K) K le_rfl).2.2,
   (cb_b2c_cold costs rewards ctc epochs _ K rfl (cb_coldPulls_zero K) K le_rfl).2.2,
   (cb_m1_cold costs rewards ctc epochs _ K rfl (cb_coldPulls_zero K) K le_rfl).2.2⟩

/-! ## Reset-idempotence machinery (claim C6) -/

theorem cb_map_const_set {α β : Type} (l : List α) (k : ℕ) (v : α) (c : β) :
    ((l.set k v).map fun _ => c) = l.map fun _ => c := by
  rw [List.map_const', List.map_const', List.length_set]

theorem cb_b1_reset_update (s : UCB_B1) (k : ℕ) (c r : ℝ) :
    (s.update_state k c r).reset = s.reset := by
  simp [UCB_B1.reset, UCB_B1.update_state, cb_map_const_set]

theorem cb_b1_reset_init (K : ℕ) (cfgs : List MomentArmConfig)
    (params : AlgorithmParams) :
    (UCB_B1.init K cfgs params).reset = UCB_B1.init K cfgs params := by
  simp [UCB_B1.init, UCB_B1.reset, List.map_const']

theorem cb_b1_reset_runOps (s : UCB_B1) (ops : List BanditOp) :
    ((UCB_B1.runOps s ops).1).reset = s.reset := by
  induction ops generalizing s with
  | nil => rfl
  | cons op rest ih =>
    cases op with
    | sel c n => simpa [UCB_B1.runOps] using ih s
    | upd k c r =>
      rw [show (UCB_B1.runOps s (BanditOp.upd k c r :: rest)).1 =
        (UCB_B1.runOps (s.update_state k c r) rest).1 from rfl]
      rw [ih (s.update_state k c r), cb_b1_reset_update]

theorem cb_b2_reset_update (s : UCB_B2) (k : ℕ) (c r : ℝ) :
    (s.update_state k c r).reset = s.reset := by
  simp [UCB_B2.reset, UCB_B2.update_state, cb_map_const_set]

theorem cb_b2_reset_init (K : ℕ) (cfgs : List BoundArmConfig)
    (params : AlgorithmParams) :
    (UCB_B2.init K cfgs params).reset = UCB_B2.init K cfgs params := by
  simp [UCB_B2.init, UCB_B2.reset, List.map_const']

theorem cb_b2_reset_runOps (s : UCB_B2) (ops : List BanditOp) :
    ((UCB_B2.runOps s ops).1).reset = s.reset := by
  induction ops generalizing s with
  | nil => rfl
  | cons op rest ih =>
    cases op with
    | sel c n => simpa [UCB_B2.runOps] using ih s
    | upd k c r =>
      rw [show (UCB_B2.runOps s (BanditOp.upd k c r :: rest)).1 =
        (UCB_B2.runOps (s.update_state k c r) rest).1 from rfl]
      rw [ih (s.update_state k c r), cb_b2_reset_update]

theorem cb_b2c_reset_update (s : UCB_B2C) (k : ℕ) (c r : ℝ) :
    (s.update_state k c r).reset = s.reset := by
  simp [UCB_B2C.reset, UCB_B2C.update_state, cb_map_const_set]

theorem cb_b2c_reset_init (K : ℕ) (cfgs : List BoundArmConfig)
    (params : AlgorithmParams) :
    (UCB_B2C.init K cfgs params).reset = UCB_B2C.init K cfgs params := by
  simp [UCB_B2C.init, UCB_B2C.reset, List.map_const']

theorem cb_b2c_reset_runOps (s : UCB_B2C) (ops : List BanditOp) :
    ((UCB_B2C.runOps s ops).1).reset = s.reset := by
  induction ops generalizing s with
  | nil => rfl
  | cons op rest ih =>
    cases op with
    | sel c n => simpa [UCB_B2C.runOps] using ih s
    | upd k c r =>
      rw [show (UCB_B2C.runOps s (BanditOp.upd k c r :: rest)).1 =
        (UCB_B2C.runOps (s.update_state k c r) rest).1 from rfl]
      rw [ih (s.update_state k c r), cb_b2c_reset_update]

theorem cb_m1_reset_update (s : UCB_M1) (k : ℕ) (c r : ℝ) :
    (s.update_state k c r).reset = s.reset := by
  simp [UCB_M1.reset, UCB_M1.update_state, cb_map_const_set]

theorem cb_m1_reset_init (K : ℕ) (cfgs : List MomentArmConfig)
    (params : AlgorithmParams) :
    (UCB_M1.init K cfgs params).reset = UCB_M1.init K cfgs params := by
  simp [UCB_M1.init, UCB_M1.reset, List.map_const']

theorem cb_m1_reset_runOps (s : UCB_M1) (ops : List BanditOp) :
    ((UCB_M1.runOps s ops).1).reset = s.reset := by
  induction ops generalizing s with
  | nil => rfl
  | cons op rest ih =>
    cases op with
    | sel c n => simpa [UCB_M1.runOps] using ih s
    | upd k c r =>
      rw [show (UCB_M1.runOps s (BanditOp.upd k c r :: rest)).1 =
        (UCB_M1.runOps (s.update_state k c r) rest).1 from rfl]
      rw [ih (s.update_state k c r), cb_m1_reset_update]

/-- C6: for every algorithm variant, every configuration, every prior
call history `hist` and every subsequent call sequence `ops`, running
`ops` after `reset()` produces exactly the same selections and final
state as running `ops` on a freshly constructed instance with the same
configuration. -/
theorem reset_equals_fresh_instance (K : ℕ) (cfgsM : List MomentArmConfig)
    (cfgsB : List BoundArmConfig) (params : AlgorithmParams)
    (hist ops : List BanditOp) :
    UCB_B1.runOps ((UCB_B1.runOps (UCB_B1.init K cfgsM params) hist).1.reset) ops =
      UCB_B1.runOps (UCB_B1.init K cfgsM params) ops ∧
    UCB_B2.runOps ((UCB_B2.runOps (UCB_B2.init K cfgsB params) hist).1.reset) ops =
      UCB_B2.runOps (UCB_B2.init K cfgsB params) ops ∧
    UCB_B2C.runOps ((UCB_B2C.runOps (UCB_B2C.init K cfgsB params) hist).1.reset) ops =
      UCB_B2C.runOps (UCB_B2C.init K cfgsB params) ops ∧
    UCB_M1.runOps ((UCB_M1.runOps (UCB_M1.init K cfgsM params) hist).1.reset) ops =
      UCB_M1.runOps (UCB_M1.init K cfgsM params) ops := by
  refine ⟨?_, ?_, ?_, ?_⟩
  · rw [cb_b1_reset_runOps, cb_b1_reset_init]
  · rw [cb_b2_reset_runOps, cb_b2_reset_init]
  · rw [cb_b2c_reset_runOps, cb_b2c_reset_init]
  · rw [cb_m1_reset_runOps, cb_m1_reset_init]

/-! ## Frame property of update_state (claim C10) -/

/-- C10: for every variant, `update_state(chosen_arm, cost, reward)`
increments the chosen arm's pull count by exactly 1, modifies only the
chosen arm's per-arm statistics (running sums or sample buffers), leaves
the statistics of every other arm unchanged, and leaves every
configuration field unchanged. -/
theorem update_state_frame (s1 : UCB_B1) (s2 : UCB_B2) (s3 : UCB_B2C)
    (s4 : UCB_M1) (k : ℕ) (c r : ℝ)
    (h1 : k < s1.arm_pulls.length) (h2 : k < s2.arm_pulls.length)
    (h3 : k < s3.arm_pulls.length) (h4 : k < s4.arm_pulls.length) :
    ((s1.update_state k c r).arm_pulls.getD k 0 = s1.arm_pulls.getD k 0 + 1 ∧
      (∀ j, j ≠ k →
        (s1.update_state k c r).arm_pulls.getD j 0 = s1.arm_pulls.getD j 0 ∧
        (s1.update_state k c r).total_costs.getD j 0 = s1.total_costs.getD j 0 ∧
        (s1.update_state k c r).total_rewards.getD j 0 = s1.total_rewards.getD j 0) ∧
      (s1.update_state k c r).num_arms = s1.num_arms ∧
      (s1.update_state k c r).alpha = s1.alpha ∧
      (s1.update_state k c r).L = s1.L ∧
      (s1.update_state k c r).b_min_cost = s1.b_min_cost ∧
      (s1.update_state k c r).var_X = s1.var_X ∧
      (s1.update_state k c r).var_R = s1.var_R ∧
      (s1.update_state k c r).cov_XR = s1.cov_XR ∧
      (s1.update_state k c r).omega_k = s1.omega_k ∧
      (s1.update_state k c r).V_XR = s1.V_XR ∧
      (s1.update_state k c r).M_X = s1.M_X ∧
      (s1.update_state k c r).M_R = s1.M_R) ∧
    ((s2.update_state k c r).arm_pulls.getD k 0 = s2.arm_pulls.getD k 0 + 1 ∧
      (∀ j, j ≠ k →
        (s2.update_state k c r).arm_pulls.getD j 0 = s2.arm_pulls.getD j 0 ∧
        (s2.update_state k c r).total_costs.getD j 0 = s2.total_costs.getD j 0 ∧
        (s2.update_state k c r).total_rewards.getD j 0 = s2.total_rewards.getD j 0 ∧
        (s2.update_state k c r).sum_sq_costs.getD j 0 = s2.sum_sq_costs.getD j 0 ∧
        (s2.update_state k c r).sum_sq_rewards.getD j 0 = s2.sum_sq_rewards.getD j 0) ∧
      (s2.update_state k c r).num_arms = s2.num_arms ∧
      (s2.update_state k c r).alpha = s2.alpha ∧
      (s2.update_state k c r).b_min_cost = s2.b_min_cost ∧
      (s2.update_state k c r).M_X = s2.M_X ∧
      (s2.update_state k c r).M_R = s2.M_R) ∧
    ((s3.update_state k c r).arm_pulls.getD k 0 = s3.arm_pulls.getD k 0 + 1 ∧
      (∀ j, j ≠ k →
        (s3.update_state k c r).arm_pulls.getD j 0 = s3.arm_pulls.getD j 0 ∧
        (s3.update_state k c r).arm_samples_X.getD j [] = s3.arm_samples_X.getD j [] ∧
        (s3.update_state k c r).arm_samples_R.getD j [] = s3.arm_samples_R.getD j []) ∧
      (s3.update_state k c r).num_arms = s3.num_arms ∧
      (s3.update_state k c r).alpha = s3.alpha ∧
      (s3.update_state k c r).b_min_cost = s3.b_min_cost ∧
      (s3.update_state k c r).omega_bar = s3.omega_bar ∧
      (s3.update_state k c r).M_X = s3.M_X ∧
      (s3.update_state k c r).M_R = s3.M_R ∧
      (s3.update_state k c r).M_Z = s3.M_Z) ∧
    ((s4.update_state k c r).arm_pulls.getD k 0 = s4.arm_pulls.getD k 0 + 1 ∧
      (∀ j, j ≠ k →
        (s4.update_state k c r).arm_pulls.getD j 0 = s4.arm_pulls.getD j 0 ∧
        (s4.update_state k c r).arm_samples_X.getD j [] = s4.arm_samples_X.getD j [] ∧
        (s4.update_state k c r).arm_samples_R.getD j [] = s4.arm_samples_R.getD j []) ∧
      (s4.update_state k c r).num_arms = s4.num_arms ∧
      (s4.update_state k c r).alpha = s4.alpha ∧
      (s4.update_state k c r).b_min_cost = s4.b_min_cost ∧
      (s4.update_state k c r).var_X = s4.var_X ∧
      (s4.update_state k c r).var_R = s4.var_R ∧
      (s4.update_state k c r).cov_XR = s4.cov_XR ∧
      (s4.update_state k c r).omega_k = s4.omega_k ∧
      (s4.update_state k c r).V_XR = s4.V_XR) := by
  refine ⟨⟨?_, fun j hj => ⟨?_, ?_, ?_⟩, rfl, rfl, rfl, rfl, rfl, rfl, rfl, rfl, rfl, rfl, rfl⟩,
    ⟨?_, fun j hj => ⟨?_, ?_, ?_, ?_, ?_⟩, rfl, rfl, rfl, rfl, rfl⟩,
    ⟨?_, fun j hj => ⟨?_, ?_, ?_⟩, rfl, rfl, rfl, rfl, rfl, rfl, rfl⟩,
    ⟨?_, fun j hj => ⟨?_, ?_, ?_⟩, rfl, rfl, rfl, rfl, rfl, rfl, rfl, rfl⟩⟩ <;>
  first
  | exact cb_getD_set_self _ _ _ _ (by assumption)
  | exact cb_getD_set_ne _ _ _ _ _ (fun h => (by assumption : _ ≠ _) h.symm)

/-- Witness for C10: applies `update_state_frame` to freshly constructed
two-arm instances of all four variants at arm `0` with cost `5` and
reward `7`, discharging the four index-in-range hypotheses. -/
theorem update_state_frame_witness :
    ((UCB_B1.init 2 [⟨1, 1, 0⟩, ⟨1, 1, 0⟩] {}).update_state 0 5 7).arm_pulls.getD 0 0 =
      (UCB_B1.init 2 [⟨1, 1, 0⟩, ⟨1, 1, 0⟩] {}).arm_pulls.getD 0 0 + 1 ∧
    ((UCB_B2.init 2 [⟨1, 1⟩, ⟨1, 1⟩] {}).update_state 0 5 7).arm_pulls.getD 0 0 =
      (UCB_B2.init 2 [⟨1, 1⟩, ⟨1, 1⟩] {}).arm_pulls.getD 0 0 + 1 ∧
    ((UCB_B2C.init 2 [⟨1, 1⟩, ⟨1, 1⟩] {}).update_state 0 5 7).arm_pulls.getD 0 0 =
      (UCB_B2C.init 2 [⟨1, 1⟩, ⟨1, 1⟩] {}).arm_pulls.getD 0 0 + 1 ∧
    ((UCB_M1.init 2 [⟨1, 1, 0⟩, ⟨1, 1, 0⟩] {}).update_state 0 5 7).arm_pulls.getD 0 0 =
      (UCB_M1.init 2 [⟨1, 1, 0⟩, ⟨1, 1, 0⟩] {}).arm_pulls.getD 0 0 + 1 ∧
    ((UCB_B1.init 2 [⟨1, 1, 0⟩, ⟨1, 1, 0⟩] {}).update_state 0 5 7).total_costs.getD 1 0 =
      (UCB_B1.init 2 [⟨1, 1, 0⟩, ⟨1, 1, 0⟩] {}).total_costs.getD 1 0 := by
  have h := update_state_frame
    (UCB_B1.init 2 [⟨1, 1, 0⟩, ⟨1, 1, 0⟩] {})
    (UCB_B2.init 2 [⟨1, 1⟩, ⟨1, 1⟩] {})
    (UCB_B2C.init 2 [⟨1, 1⟩, ⟨1, 1⟩] {})
    (UCB_M1.init 2 [⟨1, 1, 0⟩, ⟨1, 1, 0⟩] {}) 0 5 7
    (by simp [UCB_B1.init]) (by simp [UCB_B2.init])
    (by simp [UCB_B2C.init]) (by simp [UCB_M1.init])
  exact ⟨h.1.1, h.2.1.1, h.2.2.1.1, h.2.2.2.1,
    (h.1.2.1 1 (by decide)).2.1⟩

/-! ## Rate estimate and stability floor (claim C5) -/

/-- C5 (amended): for UCB_B1, UCB_B2 and UCB_B2C the per-arm rate
estimate equals `max(0, empirical mean reward) / max(bMinCost, empirical
mean cost)`; when the empirical cost mean is `0` it equals the floored
reward mean divided by `bMinCost`; and, for positive `bMinCost`, every
denominator entering the score (the floored rate denominators and the
stabilized `theta` denominators, including UCB_M1's group-rate
denominators and median-based `effective_theta1`) is nonzero.  UCB_M1's
rate estimate is *not* of this plain form (see the counterexample); its
group rates are. -/
theorem rate_estimate_stability_floor (s1 : UCB_B1) (s2 : UCB_B2)
    (s3 : UCB_B2C) (s4 : UCB_M1) (k n : ℕ)
    (hb1 : 0 < s1.b_min_cost) (hb2 : 0 < s2.b_min_cost)
    (hb3 : 0 < s3.b_min_cost) (hb4 : 0 < s4.b_min_cost) :
    (s1.r_hat k = max 0 (s1.emp_mean_R k) / max s1.b_min_cost (s1.emp_mean_X k) ∧
      (s1.emp_mean_X k = 0 → s1.r_hat k = max 0 (s1.emp_mean_R k) / s1.b_min_cost) ∧
      max s1.b_min_cost (s1.emp_mean_X k) ≠ 0) ∧
    (s2.r_hat k = max 0 (s2.emp_mean_R k) / max s2.b_min_cost (s2.emp_mean_X k) ∧
      (s2.emp_mean_X k = 0 → s2.r_hat k = max 0 (s2.emp_mean_R k) / s2.b_min_cost) ∧
      max s2.b_min_cost (s2.emp_mean_X k) ≠ 0) ∧
    (s3.r_hat k = max 0 (s3.emp_mean_R k) / max s3.b_min_cost (s3.emp_mean_X k) ∧
      (s3.emp_mean_X k = 0 → s3.r_hat k = max 0 (s3.emp_mean_R k) / s3.b_min_cost) ∧
      max s3.b_min_cost (s3.emp_mean_X k) ≠ 0) ∧
    ((∀ l : List ℝ, max s4.b_min_cost (npMean l) ≠ 0) ∧
      s4.effective_theta1 k n ≠ 0) := by
  refine ⟨⟨rfl, fun h => ?_, ?_⟩, ⟨rfl, fun h => ?_, ?_⟩, ⟨rfl, fun h => ?_, ?_⟩,
    fun l => ?_, ?_⟩
  · rw [UCB_B1.r_hat, h, max_eq_left hb1.le]
  · exact ne_of_gt (lt_of_lt_of_le hb1 (le_max_left _ _))
  · rw [UCB_B2.r_hat, h, max_eq_left hb2.le]
  · exact ne_of_gt (lt_of_lt_of_le hb2 (le_max_left _ _))
  · rw [UCB_B2C.r_hat, h, max_eq_left hb3.le]
  · exact ne_of_gt (lt_of_lt_of_le hb3 (le_max_left _ _))
  · exact ne_of_gt (lt_of_lt_of_le hb4 (le_max_left _ _))
  · exact ne_of_gt (lt_of_lt_of_le hb4 (le_max_left _ _))

/-- Witness for C5: fresh single-arm instances (where the empirical
cost mean is `0` because no pulls happened) with the default
`b_min_cost = 0.1 > 0`; the theorem gives the `reward/bMinCost` form and
a nonzero denominator. -/
theorem rate_estimate_stability_floor_witness :
    (UCB_B1.init 1 [⟨1, 1, 0⟩] {}).r_hat 0 =
      max 0 ((UCB_B1.init 1 [⟨1, 1, 0⟩] {}).emp_mean_R 0) / 0.1 ∧
    max (UCB_B2.init 1 [⟨1, 1⟩] {}).b_min_cost
      ((UCB_B2.init 1 [⟨1, 1⟩] {}).emp_mean_X 0) ≠ 0 ∧
    (UCB_M1.init 1 [⟨1, 1, 0⟩] {}).effective_theta1 0 1 ≠ 0 := by
  have h := rate_estimate_stability_floor
    (UCB_B1.init 1 [⟨1, 1, 0⟩] {}) (UCB_B2.init 1 [⟨1, 1⟩] {})
    (UCB_B2C.init 1 [⟨1, 1⟩] {}) (UCB_M1.init 1 [⟨1, 1, 0⟩] {}) 0 1
    (by norm_num [UCB_B1.init]) (by norm_num [UCB_B2.init])
    (by norm_num [UCB_B2C.init]) (by norm_num [UCB_M1.init])
  refine ⟨?_, h.2.1.2.2, h.2.2.2.2⟩
  have hX : (UCB_B1.init 1 [⟨1, 1, 0⟩] {}).emp_mean_X 0 = 0 := by
    simp [UCB_B1.init, UCB_B1.emp_mean_X, UCB_B1.T_k]
  have := h.1.2.1 hX
  rwa [show (UCB_B1.init 1 [⟨1, 1, 0⟩] {}).b_min_cost = 0.1 from rfl] at this

/-- C5 counterexample: a UCB_M1 instance with one arm (`alpha = 1`),
after observing `(cost, reward) = (1, 6)` and `(3, 0)`, at epoch `2`.
The median-of-means machinery forms two groups with rates `6` and `0`,
so the rate estimate is their median `3`; the claimed plain form
`max(0, mean reward) / max(bMinCost, mean cost) = 3/2` differs.  So the
M1 rate estimate is not the floored ratio of empirical means. -/
theorem rate_estimate_m1_counterexample :
    UCB_M1.median_rate_estimator
        (((UCB_M1.init 1 [⟨1, 1, 0⟩] { alpha := some 1 }).update_state 0 1 6).update_state
          0 3 0) 0 2 = 3 ∧
    max 0 (npMean ((((UCB_M1.init 1 [⟨1, 1, 0⟩] { alpha := some 1 }).update_state 0 1 6).update_state
          0 3 0).arm_samples_R.getD 0 [])) /
      max (((UCB_M1.init 1 [⟨1, 1, 0⟩] { alpha := some 1 }).update_state 0 1 6).update_state
          0 3 0).b_min_cost
        (npMean ((((UCB_M1.init 1 [⟨1, 1, 0⟩] { alpha := some 1 }).update_state 0 1 6).update_state
          0 3 0).arm_samples_X.getD 0 [])) = 3 / 2 ∧
    (3 : ℝ) ≠ 3 / 2 := by
  have hsX : (((UCB_M1.init 1 [⟨1, 1, 0⟩] { alpha := some 1 }).update_state 0 1 6).update_state
      0 3 0).arm_samples_X.getD 0 [] = [1, 3] := by
    simp [UCB_M1.init, UCB_M1.update_state]
  have hsR : (((UCB_M1.init 1 [⟨1, 1, 0⟩] { alpha := some 1 }).update_state 0 1 6).update_state
      0 3 0).arm_samples_R.getD 0 [] = [6, 0] := by
    simp [UCB_M1.init, UCB_M1.update_state]
  have hT : (((UCB_M1.init 1 [⟨1, 1, 0⟩] { alpha := some 1 }).update_state 0 1 6).update_state
      0 3 0).arm_pulls.getD 0 0 = 2 := by
    simp [UCB_M1.init, UCB_M1.update_state]
  have halpha : (((UCB_M1.init 1 [⟨1, 1, 0⟩] { alpha := some 1 }).update_state 0 1 6).update_state
      0 3 0).alpha = 1 := rfl
  have hb : (((UCB_M1.init 1 [⟨1, 1, 0⟩] { alpha := some 1 }).update_state 0 1 6).update_state
      0 3 0).b_min_cost = 0.1 := rfl
  have hfl : ⌊(3.5 : ℝ) * 1 * Real.log 2⌋ = 2 := by
    have h1 := Real.log_two_gt_d9
    have h2 := Real.log_two_lt_d9
    rw [Int.floor_eq_iff]
    constructor
    · push_cast; nlinarith
    · push_cast; nlinarith
  have hng : UCB_M1.num_groups 1 2 2 = 2 := by
    rw [UCB_M1.num_groups]
    rw [show ((2 : ℕ) : ℝ) = (2 : ℝ) by norm_num, hfl]
    norm_num
    decide
  refine ⟨?_, ?_, by norm_num⟩
  · rw [UCB_M1.median_rate_estimator]
    simp only [UCB_M1.T_k, hT, halpha, hsX, hsR, hb, hng]
    norm_num [npMedian, insertionSort, insertSorted, npMean,
      List.range_succ]
  · rw [hsX, hsR, hb]
    norm_num [npMean]

/-! ## Stability guard and infinite score (claim C1) -/

/-- C1 (amended): for UCB_B2, UCB_B2C and UCB_M1 the stability guard for
an arm fails exactly when `eta >= theta_plus * (lambda - 1) / lambda`
with `lambda = 1.28` and `theta_plus = max(bMinCost, estimatedCostMean)`
(the median-based cost mean for M1); for UCB_B1 the guard instead fails
exactly when `emp_mean_X < bMinCost` or
`eta >= emp_mean_X * (lambda - 1) / lambda` — which agrees with the
`theta_plus` comparison whenever `emp_mean_X >= bMinCost` but also fails
outright for any `emp_mean_X` below `bMinCost`.  In all four variants a
failed guard makes the arm's final score `+∞`. -/
theorem stability_guard_spec (s1 : UCB_B1) (s2 : UCB_B2) (s3 : UCB_B2C)
    (s4 : UCB_M1) (k n : ℕ) :
    ((¬ s1.stability_condition_met k n ↔
        (s1.emp_mean_X k < s1.b_min_cost ∨
          s1.eta_g k n ≥ s1.emp_mean_X k * (UCB_B1.lambda_val - 1) / UCB_B1.lambda_val)) ∧
      (¬ s1.emp_mean_X k < s1.b_min_cost →
        (¬ s1.stability_condition_met k n ↔
          s1.eta_g k n ≥ max s1.b_min_cost (s1.emp_mean_X k) *
            (UCB_B1.lambda_val - 1) / UCB_B1.lambda_val)) ∧
      (¬ s1.stability_condition_met k n → s1.ucb_value k n = ⊤)) ∧
    ((¬ s2.stability_condition_met k n ↔
        s2.eta_b2 k n ≥ s2.effective_theta1 k *
          (UCB_B1.lambda_val - 1) / UCB_B1.lambda_val) ∧
      (¬ s2.stability_condition_met k n → s2.ucb_value k n = ⊤)) ∧
    ((¬ s3.stability_condition_met k n ↔
        s3.eta_b2c k n ≥ s3.effective_theta1 k *
          (UCB_B1.lambda_val - 1) / UCB_B1.lambda_val) ∧
      (¬ s3.stability_condition_met k n → s3.ucb_value k n = ⊤)) ∧
    ((¬ s4.stability_condition_met k n ↔
        s4.eta_M k n ≥ s4.effective_theta1 k n *
          (UCB_B1.lambda_val - 1) / UCB_B1.lambda_val) ∧
      (¬ s4.stability_condition_met k n → s4.ucb_value k n = ⊤)) := by
  refine ⟨⟨?_, ?_, ?_⟩, ⟨?_, ?_⟩, ⟨?_, ?_⟩, ⟨?_, ?_⟩⟩
  · rw [UCB_B1.stability_condition_met]
    tauto
  · intro h
    rw [UCB_B1.stability_condition_met, max_eq_right (not_lt.mp h)]
    tauto
  · intro h
    rw [UCB_B1.ucb_value, UCB_B1.c_b1, if_pos h]
    exact EReal.coe_add_top _
  · rw [UCB_B2.stability_condition_met]
    exact not_not
  · intro h
    rw [UCB_B2.ucb_value, UCB_B2.c_b2, if_pos h]
    exact EReal.coe_add_top _
  · rw [UCB_B2C.stability_condition_met]
    exact not_not
  · intro h
    rw [UCB_B2C.ucb_value, UCB_B2C.c_b2c, if_pos h]
    exact EReal.coe_add_top _
  · rw [UCB_M1.stability_condition_met]
    exact not_not
  · intro h
    rw [UCB_M1.ucb_value, UCB_M1.c_M, if_pos h]
    exact EReal.coe_add_top _

/-- C1 counterexample: a UCB_B1 state (one arm, default parameters,
`var_X = 0`, one pull with cost `0.05`, epoch `1`) on which the code's
guard fails — so the score is `+∞` — even though
`eta = 0 < max(bMinCost, emp_mean_X) * (lambda-1)/lambda = 0.021875`:
the B1 guard is not the claimed `theta_plus` comparison. -/
theorem stability_guard_b1_counterexample :
    ¬ UCB_B1.stability_condition_met
        ((UCB_B1.init 1 [⟨0, 0, 0⟩] {}).update_state 0 0.05 0) 0 1 ∧
    UCB_B1.eta_g ((UCB_B1.init 1 [⟨0, 0, 0⟩] {}).update_state 0 0.05 0) 0 1 <
      max ((UCB_B1.init 1 [⟨0, 0, 0⟩] {}).update_state 0 0.05 0).b_min_cost
          (UCB_B1.emp_mean_X ((UCB_B1.init 1 [⟨0, 0, 0⟩] {}).update_state 0 0.05 0) 0) *
        (UCB_B1.lambda_val - 1) / UCB_B1.lambda_val ∧
    UCB_B1.ucb_value ((UCB_B1.init 1 [⟨0, 0, 0⟩] {}).update_state 0 0.05 0) 0 1 = ⊤ := by
  have hemp : UCB_B1.emp_mean_X
      ((UCB_B1.init 1 [⟨0, 0, 0⟩] {}).update_state 0 0.05 0) 0 = 0.05 := by
    rw [UCB_B1.emp_mean_X, UCB_B1.T_k]
    norm_num [UCB_B1.init, UCB_B1.update_state]
  have heta : UCB_B1.eta_g
      ((UCB_B1.init 1 [⟨0, 0, 0⟩] {}).update_state 0 0.05 0) 0 1 = 0 := by
    rw [UCB_B1.eta_g, UCB_B1.T_k]
    norm_num [UCB_B1.init, UCB_B1.update_state, Real.log_one, Real.sqrt_zero]
  have hb : ((UCB_B1.init 1 [⟨0, 0, 0⟩] {}).update_state 0 0.05 0).b_min_cost = 0.1 := rfl
  have hfail : ¬ UCB_B1.stability_condition_met
      ((UCB_B1.init 1 [⟨0, 0, 0⟩] {}).update_state 0 0.05 0) 0 1 := by
    rw [UCB_B1.stability_condition_met, hemp, hb]
    intro hcon
    exact hcon.1 (by norm_num)
  refine ⟨hfail, ?_, ?_⟩
  · rw [hemp, heta, hb, UCB_B1.lambda_val]
    norm_num
  · rw [UCB_B1.ucb_value, UCB_B1.c_b1, if_pos hfail]
    exact EReal.coe_add_top _

/-- Witness for C1: applies `stability_guard_spec` to concrete one-arm
states on which each variant's guard fails (epoch `1`, so all deviation
terms are `0`, with a stabilized denominator that is not positive),
yielding the `+∞` score; and, for a B1 state with
`emp_mean_X = 0.2 ≥ b_min_cost`, the `theta_plus` form of the B1 guard. -/
theorem stability_guard_spec_witness :
    UCB_B1.ucb_value ((UCB_B1.init 1 [⟨0, 0, 0⟩] {}).update_state 0 0.05 0) 0 1 = ⊤ ∧
    UCB_B2.ucb_value
      ((UCB_B2.init 1 [⟨0, 0⟩] { b_min_cost := some (-1) }).update_state 0 (-2) 0) 0 1 = ⊤ ∧
    UCB_B2C.ucb_value
      ((UCB_B2C.init 1 [⟨0, 0⟩] { b_min_cost := some (-1) }).update_state 0 (-2) 0) 0 1 = ⊤ ∧
    UCB_M1.ucb_value
      ((UCB_M1.init 1 [⟨0, 0, 0⟩] { b_min_cost := some (-1) }).update_state 0 (-2) 0) 0 1 = ⊤ ∧
    (¬ UCB_B1.stability_condition_met
        ((UCB_B1.init 1 [⟨0, 0, 0⟩] {}).update_state 0 0.2 0) 0 1 ↔
      UCB_B1.eta_g ((UCB_B1.init 1 [⟨0, 0, 0⟩] {}).update_state 0 0.2 0) 0 1 ≥
        max ((UCB_B1.init 1 [⟨0, 0, 0⟩] {}).update_state 0 0.2 0).b_min_cost
            (UCB_B1.emp_mean_X ((UCB_B1.init 1 [⟨0, 0, 0⟩] {}).update_state 0 0.2 0) 0) *
          (UCB_B1.lambda_val - 1) / UCB_B1.lambda_val) := by
  have h := stability_guard_spec
    ((UCB_B1.init 1 [⟨0, 0, 0⟩] {}).update_state 0 0.05 0)
    ((UCB_B2.init 1 [⟨0, 0⟩] { b_min_cost := some (-1) }).update_state 0 (-2) 0)
    ((UCB_B2C.init 1 [⟨0, 0⟩] { b_min_cost := some (-1) }).update_state 0 (-2) 0)
    ((UCB_M1.init 1 [⟨0, 0, 0⟩] { b_min_cost := some (-1) }).update_state 0 (-2) 0) 0 1
  have h2 := stability_guard_spec
    ((UCB_B1.init 1 [⟨0, 0, 0⟩] {}).update_state 0 0.2 0)
    ((UCB_B2.init 1 [⟨0, 0⟩] { b_min_cost := some (-1) }).update_state 0 (-2) 0)
    ((UCB_B2C.init 1 [⟨0, 0⟩] { b_min_cost := some (-1) }).update_state 0 (-2) 0)
    ((UCB_M1.init 1 [⟨0, 0, 0⟩] { b_min_cost := some (-1) }).update_state 0 (-2) 0) 0 1
  refine ⟨h.1.2.2 ?_, h.2.1.2 ?_, h.2.2.1.2 ?_, h.2.2.2.2 ?_, h2.1.2.1 ?_⟩
  · rw [UCB_B1.stability_condition_met]
    have hemp : UCB_B1.emp_mean_X
        ((UCB_B1.init 1 [⟨0, 0, 0⟩] {}).update_state 0 0.05 0) 0 = 0.05 := by
      rw [UCB_B1.emp_mean_X, UCB_B1.T_k]
      norm_num [UCB_B1.init, UCB_B1.update_state]
    rw [hemp]
    intro hcon
    exact hcon.1 (by norm_num [UCB_B1.init, UCB_B1.update_state])
  · rw [UCB_B2.stability_condition_met, not_not]
    have heta : UCB_B2.eta_b2
        ((UCB_B2.init 1 [⟨0, 0⟩] { b_min_cost := some (-1) }).update_state 0 (-2) 0) 0 1 = 0 := by
      rw [UCB_B2.eta_b2, UCB_B2.T_k, UCB_B2.log_n_alpha]
      norm_num [UCB_B2.init, UCB_B2.update_state, UCB_B2.emp_var_X,
        calculate_empirical_variance, UCB_B2.T_k, Real.log_one, Real.sqrt_zero]
    have hth : UCB_B2.effective_theta1
        ((UCB_B2.init 1 [⟨0, 0⟩] { b_min_cost := some (-1) }).update_state 0 (-2) 0) 0 = -1 := by
      rw [UCB_B2.effective_theta1, UCB_B2.emp_mean_X, UCB_B2.T_k]
      norm_num [UCB_B2.init, UCB_B2.update_state, calculate_empirical_mean]
    rw [heta, hth, UCB_B1.lambda_val]
    norm_num
  · rw [UCB_B2C.stability_condition_met, not_not]
    have heta : UCB_B2C.eta_b2c
        ((UCB_B2C.init 1 [⟨0, 0⟩] { b_min_cost := some (-1) }).update_state 0 (-2) 0) 0 1 = 0 := by
      rw [UCB_B2C.eta_b2c, UCB_B2C.T_k, UCB_B2C.log_n_alpha]
      norm_num [UCB_B2C.init, UCB_B2C.update_state, UCB_B2C.emp_var_X,
        UCB_B2C.sum_X_sq, UCB_B2C.sum_X, UCB_B2C.T_k,
        calculate_empirical_variance, Real.log_one, Real.sqrt_zero]
    have hth : UCB_B2C.effective_theta1
        ((UCB_B2C.init 1 [⟨0, 0⟩] { b_min_cost := some (-1) }).update_state 0 (-2) 0) 0 = -1 := by
      rw [UCB_B2C.effective_theta1, UCB_B2C.emp_mean_X, UCB_B2C.sum_X, UCB_B2C.T_k]
      norm_num [UCB_B2C.init, UCB_B2C.update_state, calculate_empirical_mean]
    rw [heta, hth, UCB_B1.lambda_val]
    norm_num
  · rw [UCB_M1.stability_condition_met, not_not]
    have heta : UCB_M1.eta_M
        ((UCB_M1.init 1 [⟨0, 0, 0⟩] { b_min_cost := some (-1) }).update_state 0 (-2) 0) 0 1 = 0 := by
      rw [UCB_M1.eta_M, UCB_M1.T_k]
      norm_num [UCB_M1.init, UCB_M1.update_state, Real.log_one, Real.sqrt_zero]
    have hng : UCB_M1.num_groups
        ((UCB_M1.init 1 [⟨0, 0, 0⟩] { b_min_cost := some (-1) }).update_state 0 (-2) 0).alpha 1 1 = 1 := by
      rw [UCB_M1.num_groups]
      norm_num [Real.log_one]
    have hmed : UCB_M1.median_empirical_X
        ((UCB_M1.init 1 [⟨0, 0, 0⟩] { b_min_cost := some (-1) }).update_state 0 (-2) 0) 0 1 = -2 := by
      rw [UCB_M1.median_empirical_X]
      have hT : UCB_M1.T_k
          ((UCB_M1.init 1 [⟨0, 0, 0⟩] { b_min_cost := some (-1) }).update_state 0 (-2) 0) 0 = 1 := by
        rw [UCB_M1.T_k]
        simp [UCB_M1.init, UCB_M1.update_state]
      have hsX : (((UCB_M1.init 1 [⟨0, 0, 0⟩] { b_min_cost := some (-1) }).update_state
          0 (-2) 0)).arm_samples_X.getD 0 [] = [-2] := by
        simp [UCB_M1.init, UCB_M1.update_state]
      simp only [hT, hng, hsX]
      norm_num [npMedian, insertionSort, insertSorted, npMean, List.range_succ]
    have hth : UCB_M1.effective_theta1
        ((UCB_M1.init 1 [⟨0, 0, 0⟩] { b_min_cost := some (-1) }).update_state 0 (-2) 0) 0 1 = -1 := by
      rw [UCB_M1.effective_theta1, hmed]
      norm_num [UCB_M1.init, UCB_M1.update_state]
    rw [heta, hth, UCB_B1.lambda_val]
    norm_num
  · rw [UCB_B1.emp_mean_X, UCB_B1.T_k]
    norm_num [UCB_B1.init, UCB_B1.update_state]

/-! ## Heavy-tailed cost above the Pareto scale (claim C4) -/

/-- C4 counterexample: a heavy-tailed arm with `loc_pareto_X = 1` and
`correlation = 1`, Pareto draw `0` and common-factor draw `-5`, yields
cost `(0+1)*1 + 1*(-5) = -4`, which is not above the scale `1`.  The
correlation injection breaks the cost floor. -/
theorem pareto_cost_counterexample :
    (heavy_tailed_sample 1 1 0 5 (-5)).1 = -4 ∧ ¬ ((-4 : ℝ) > 1) := by
  constructor
  · norm_num [heavy_tailed_sample]
  · norm_num

/-- C4 (amended): for a heavy-tailed arm with `correlation = 0` and
positive scale `loc_pareto_X`, the cost component of `pull_arm` is at
least `loc_pareto_X` for every non-negative Pareto draw, and strictly
above it whenever the Pareto draw is positive. -/
theorem pareto_cost_above_scale (loc corr p l z : ℝ) (hp : 0 ≤ p)
    (hloc : 0 < loc) (hcorr : corr = 0) :
    loc ≤ (heavy_tailed_sample loc corr p l z).1 ∧
    (0 < p → loc < (heavy_tailed_sample loc corr p l z).1) := by
  subst hcorr
  rw [heavy_tailed_sample]
  simp only [ne_eq, not_true_eq_false, if_false]
  constructor
  · nlinarith
  · intro hppos
    nlinarith

/-- Witness for C4: `loc = 2`, `correlation = 0`, Pareto draw `3`:
the cost `(3+1)*2 = 8` is strictly above the scale `2`. -/
theorem pareto_cost_above_scale_witness :
    (2 : ℝ) ≤ (heavy_tailed_sample 2 0 3 1 0).1 ∧
    (2 : ℝ) < (heavy_tailed_sample 2 0 3 1 0).1 := by
  have h := pareto_cost_above_scale 2 0 3 1 0 (by norm_num) (by norm_num) rfl
  exact ⟨h.1, h.2 (by norm_num)⟩

/-! ## Environment construction with non-positive mean cost (claim C3) -/

/-- C3 counterexample: constructing the environment with a single
Gaussian arm whose `mean_X = -1` (valid covariance) does not fail — it
returns an environment instance, with only a printed warning recorded
and the arm's true reward rate set to `-inf`. -/
theorem nonpositive_mean_cost_counterexample :
    GeneralCostRewardEnvironment.init 1
        [⟨"a", "gaussian",
          { mean_X := some (-1), mean_R := some 1, var_X := some 1,
            var_R := some 1, cov_XR := some 0 }⟩] none =
      Except.ok
        { num_arms := 1
          arm_configs := [⟨"a", "gaussian",
            { mean_X := some (-1), mean_R := some 1, var_X := some 1,
              var_R := some 1, cov_XR := some 0 }⟩]
          true_reward_rates := [⊥]
          optimal_reward_rate := ⊥
          arm_samplers := [ArmSampler.gaussian (-1) 1 1 0 1]
          rng := ⟨none, 0⟩
          initial_seed := none
          warnings := ["Warning: Arm 0 has non-positive expected cost."] } := by
  rw [GeneralCostRewardEnvironment.init]
  norm_num [GeneralCostRewardEnvironment.build_samplers,
    GeneralCostRewardEnvironment.build_sampler, cholesky_ok]
  rfl

/-- C3 (amended): a non-positive `mean_X` is not a fatal configuration
error: for any Gaussian arm with all required parameters present, a
positive-definite covariance and `mean_X ≤ 0`, construction succeeds and
produces an environment instance whose only record of the problem is a
printed warning (and a `-inf` true reward rate). -/
theorem nonpositive_mean_cost_env_constructed (mx mr vx vr cv : ℝ)
    (seed : Option ℕ) (hmx : mx ≤ 0) (hpd : cholesky_ok vx cv vr) :
    GeneralCostRewardEnvironment.init 1
        [⟨"a", "gaussian",
          { mean_X := some mx, mean_R := some mr, var_X := some vx,
            var_R := some vr, cov_XR := some cv }⟩] seed =
      Except.ok
        { num_arms := 1
          arm_configs := [⟨"a", "gaussian",
            { mean_X := some mx, mean_R := some mr, var_X := some vx,
              var_R := some vr, cov_XR := some cv }⟩]
          true_reward_rates := [⊥]
          optimal_reward_rate := ⊥
          arm_samplers := [ArmSampler.gaussian mx mr vx cv vr]
          rng := ⟨seed, 0⟩
          initial_seed := none
          warnings := ["Warning: Arm 0 has non-positive expected cost."] } := by
  rw [GeneralCostRewardEnvironment.init]
  norm_num [GeneralCostRewardEnvironment.build_samplers,
    GeneralCostRewardEnvironment.build_sampler, if_pos hpd, if_pos hmx,
    if_neg (not_lt.mpr hmx)]
  rfl

/-- Witness for C3: instantiates the amended theorem at `mean_X = -1`
with the identity covariance, discharging both hypotheses. -/
theorem nonpositive_mean_cost_env_constructed_witness :
    GeneralCostRewardEnvironment.init 1
        [⟨"a", "gaussian",
          { mean_X := some (-1), mean_R := some 2, var_X := some 1,
            var_R := some 1, cov_XR := some 0 }⟩] (some 7) =
      Except.ok
        { num_arms := 1
          arm_configs := [⟨"a", "gaussian",
            { mean_X := some (-1), mean_R := some 2, var_X := some 1,
              var_R := some 1, cov_XR := some 0 }⟩]
          true_reward_rates := [⊥]
          optimal_reward_rate := ⊥
          arm_samplers := [ArmSampler.gaussian (-1) 2 1 0 1]
          rng := ⟨some 7, 0⟩
          initial_seed := none
          warnings := ["Warning: Arm 0 has non-positive expected cost."] } :=
  nonpositive_mean_cost_env_constructed (-1) 2 1 1 0 (some 7)
    (by norm_num) ⟨by norm_num, by norm_num⟩

/-! ## Environment reset never restores the seed (claim C9) -/

/-- C9: the constructor never assigns `_initial_seed`, so every
successfully constructed environment (with or without an explicit seed)
has the attribute absent, and `reset()` is the identity: the random
generator state is unchanged and subsequent sampling continues the
existing sequence instead of replaying it from the seed. -/
theorem env_reset_keeps_rng (num_arms : ℕ) (cfgs : List EnvArmConfig)
    (seed : Option ℕ) (e : GeneralCostRewardEnvironment)
    (h : GeneralCostRewardEnvironment.init num_arms cfgs seed = Except.ok e) :
    e.initial_seed = none ∧ e.reset = e ∧ e.reset.rng = e.rng := by
  have hseed : e.initial_seed = none := by
    rw [GeneralCostRewardEnvironment.init] at h
    split at h
    · exact absurd h (by simp)
    · split at h
      · exact absurd h (by simp)
      · split at h
        · exact absurd h (by simp)
        · rename_i heq
          obtain rfl := (Except.ok.injEq _ _).mp h
          rfl
  have hreset : e.reset = e := by
    rw [GeneralCostRewardEnvironment.reset, hseed]
  exact ⟨hseed, hreset, by rw [hreset]⟩

/-- Witness for C9: applies the theorem to the concrete seeded
environment produced in the C3 witness scenario, discharging the
construction hypothesis by evaluating `init`. -/
theorem env_reset_keeps_rng_witness :
    ({ num_arms := 1
       arm_configs := [⟨"a", "gaussian",
         { mean_X := some 1, mean_R := some 2, var_X := some 1,
           var_R := some 1, cov_XR := some 0 }⟩]
       true_reward_rates := [((2 : ℝ) : EReal)]
       optimal_reward_rate := ((2 : ℝ) : EReal)
       arm_samplers := [ArmSampler.gaussian 1 2 1 0 1]
       rng := ⟨some 42, 0⟩
       initial_seed := none
       warnings := [] } : GeneralCostRewardEnvironment).reset =
      { num_arms := 1
        arm_configs := [⟨"a", "gaussian",
          { mean_X := some 1, mean_R := some 2, var_X := some 1,
            var_R := some 1, cov_XR := some 0 }⟩]
        true_reward_rates := [((2 : ℝ) : EReal)]
        optimal_reward_rate := ((2 : ℝ) : EReal)
        arm_samplers := [ArmSampler.gaussian 1 2 1 0 1]
        rng := ⟨some 42, 0⟩
        initial_seed := none
        warnings := [] } := by
  refine (env_reset_keeps_rng 1
    [⟨"a", "gaussian",
      { mean_X := some 1, mean_R := some 2, var_X := some 1,
        var_R := some 1, cov_XR := some 0 }⟩] (some 42) _ ?_).2.1
  rw [GeneralCostRewardEnvironment.init]
  norm_num [GeneralCostRewardEnvironment.build_samplers,
    GeneralCostRewardEnvironment.build_sampler, cholesky_ok]

end
